import Mathlib

/-! # libavg video decoder and state animation: a shallow embedding

The decoder of `src/video/VideoDecoder.cpp` is a record of its member variables;
every member function is a function from the record (and the call's arguments) to
the record after the call, paired with the outcome of the call (a value, a thrown
`Exception`, a failed `AVG_ASSERT`, or a read through a null pointer).  The FFmpeg
library, the VAAPI backend and the bitmap loader are collaborators outside the
repository's sources: they appear as the fields of `World`, and every theorem holds
for all of them.  Compile-time switches (`#ifdef`) are the fields of `BuildConfig`.
The state animation of `src/anim/StateAnim.cpp` is embedded the same way, with the
answers of the player and of the child animations as the fields of `AnimEnv`.
-/

namespace avg

/-! ## Data model -/

/-- Modelled from the spec: the enumeration `VideoDecoder::DecoderState` of
`VideoDecoder.h`, which is not among the sources; its three lifecycle states, as
the spec lists them and `VideoDecoder.cpp` names them. -/
inductive DecoderState where
  | CLOSED
  | OPENED
  | DECODING
  deriving DecidableEq, Repr

/-- FFmpeg media types of a stream (`enum AVMediaType`). -/
inductive AVMediaType where
  | AVMEDIA_TYPE_UNKNOWN
  | AVMEDIA_TYPE_VIDEO
  | AVMEDIA_TYPE_AUDIO
  | AVMEDIA_TYPE_DATA
  | AVMEDIA_TYPE_SUBTITLE
  | AVMEDIA_TYPE_ATTACHMENT
  deriving DecidableEq, Repr

/-- FFmpeg source pixel formats: the enumerators `calcPixelFormat` names, and
`PIX_FMT_OTHER n` for each of the remaining enumerators of `enum AVPixelFormat`. -/
inductive AVPixelFormat where
  | PIX_FMT_YUV420P
  | PIX_FMT_YUVJ420P
  | PIX_FMT_YUVA420P
  | PIX_FMT_BGRA
  | PIX_FMT_VDPAU_H264
  | PIX_FMT_VDPAU_MPEG1
  | PIX_FMT_VDPAU_MPEG2
  | PIX_FMT_VDPAU_WMV3
  | PIX_FMT_VDPAU_VC1
  | PIX_FMT_VAAPI_VLD
  | PIX_FMT_OTHER (n : Nat)
  deriving DecidableEq, Repr

/-- Modelled from the spec: the output `PixelFormat` enumeration of
`graphics/PixelFormat.h`, which is not among the sources; its planar YCbCr
variants, its packed RGB variants with and without alpha, and the
`NO_PIXELFORMAT` placeholder. -/
inductive PixelFormat where
  | B8G8R8A8
  | B8G8R8X8
  | R8G8B8A8
  | R8G8B8X8
  | YCbCr420p
  | YCbCrJ420p
  | YCbCrA420p
  | NO_PIXELFORMAT
  deriving DecidableEq, Repr

/-- Modelled from the spec: the enumeration `StreamSelect`, whose declaration is
not among the sources; the three selectors `getDuration` tells apart. -/
inductive StreamSelect where
  | SS_AUDIO
  | SS_VIDEO
  | SS_DEFAULT
  deriving DecidableEq, Repr

open AVMediaType StreamSelect

/-- An FFmpeg rational (`AVRational`). -/
structure AVRational where
  num : Int
  den : Int
  deriving DecidableEq, Repr

/-- The fields of `AVCodecContext` the decoder reads. -/
structure AVCodecContext where
  codec_type : AVMediaType
  codec_id : Nat
  width : Int
  height : Int
  pix_fmt : AVPixelFormat
  channels : Int
  sample_rate : Int
  deriving DecidableEq, Repr

/-- The fields of `AVStream` the decoder reads. -/
structure AVStream where
  codec : AVCodecContext
  duration : Int
  time_base : AVRational
  nb_frames : Int
  r_frame_rate : AVRational
  deriving DecidableEq, Repr

/-- The demuxing context: format name, stream table (`streams[0 .. nb_streams)`),
bit rate. -/
structure AVFormatContext where
  iformat_name : String
  streams : List AVStream
  bit_rate : Int
  deriving DecidableEq, Repr

/-- A decoder implementation returned by the codec lookup (`AVCodec`). -/
structure AVCodec where
  name : String
  deriving DecidableEq, Repr

/-- Modelled from the spec: the caller's audio parameters (`AudioParams`, declared
outside the sources); the maximum supported channel count is the one member
`startDecoding` reads. -/
structure AudioParams where
  m_Channels : Int
  deriving DecidableEq, Repr

/-- Modelled from the spec: the integer pair `IntPoint` (declared outside the
sources) that holds the frame size. -/
structure IntPoint where
  x : Int
  y : Int
  deriving DecidableEq, Repr

/-- Modelled from the spec: the error codes of `base/Exception.h` (not among the
sources) that the sources throw: the one every exception of the decoder carries,
and the two of `StateAnim`. -/
inductive ErrCode where
  | AVG_ERR_VIDEO_INIT_FAILED
  | AVG_ERR_UNSUPPORTED
  | AVG_ERR_INVALID_ARGS
  deriving DecidableEq, Repr

/-- How a call can end other than by returning: a thrown `Exception(code, msg)`,
a failed `AVG_ASSERT` (the macro is defined outside the sources; the spec has a
call in the wrong lifecycle state raise `InvalidStateError`), a read through a
null pointer, or a read outside the stream table. -/
inductive Fault where
  | exception (code : ErrCode) (msg : String)
  | assertFailed
  | nullDeref
  | outOfBounds
  deriving DecidableEq, Repr

/-- The faults that end the process: a read through a null pointer or past the end
of the stream table.  A thrown exception and a failed `AVG_ASSERT` (which throws)
leave the decoder in the state they found it in, for the caller to go on with. -/
def Fault.isCrash : Fault → Bool
  | .nullDeref => true
  | .outOfBounds => true
  | _ => false

/-- The call returned or threw: it did not end the process. -/
def survived {α : Type} (r : Except Fault α) : Bool :=
  match r with
  | .ok _ => true
  | .error f => !f.isCrash

/-- The "unknown timestamp" sentinel `AV_NOPTS_VALUE`: `INT64_C(0x8000000000000000)`
read as a signed 64-bit integer. -/
def AV_NOPTS_VALUE : Int := -(2 ^ 63)

/-- Compile-time configuration: the accelerator backends compiled in, the major
version of libavformat, and the two FFmpeg error constants `avcodecError` tests. -/
structure BuildConfig where
  AVG_ENABLE_VDPAU : Bool
  AVG_ENABLE_VAAPI : Bool
  LIBAVFORMAT_VERSION_MAJOR : Nat
  AVERROR_INVALIDDATA : Int
  AVERROR_NOFMT : Int

/-- The collaborators outside the repository: the FFmpeg entry points the decoder
calls, the VAAPI backend's codec opener and the bitmap loader's default format.
`avformat_open_input` yields the error code and the pointer it stores;
`avformat_find_stream_info` yields the error code and the probed context. -/
structure World where
  avformat_open_input : String → Int × Option AVFormatContext
  avformat_find_stream_info : AVFormatContext → Int × AVFormatContext
  avcodec_find_decoder : Nat → Option AVCodec
  avcodec_open2 : AVCodecContext → AVCodec → Int
  avcodec_string : AVCodecContext → String
  av_strerror : Int → String
  vaapiOpenCodec : AVCodecContext → Option AVCodec
  getDefaultPixelFormat : Bool → PixelFormat

/-- Single-precision arithmetic as used by the stream clock: the conversion of an
integer to `float`, `float(av_q2d(r))`, the product, and the conversion back to
`int`.  The operations are parameters; no property of them is assumed. -/
structure FloatOps where
  F : Type
  ofInt : Int → F
  q2d : AVRational → F
  mul : F → F → F
  toInt : F → Int

/-- The member variables of `VideoDecoder`, as the constructor initialises them,
and `m_sFilename` (the class declaration in `VideoDecoder.h` is not among the
sources).  A stream pointer holds the descriptor it points to; `none` is the null
pointer.  An accelerator pointer holds the serial number of the accelerator object
it points to.  The last two fields are ghost state for heap accounting: the
accelerator objects created and not yet deleted, and the serial number of the
next one. -/
structure VideoDecoder where
  m_State : DecoderState
  m_pFormatContext : Option AVFormatContext
  m_sFilename : String
  m_VStreamIndex : Int
  m_pVStream : Option AVStream
  m_PF : PixelFormat
  m_Size : IntPoint
  m_pVDPAUDecoder : Option Nat
  m_pVAAPIDecoder : Option Nat
  m_AStreamIndex : Int
  m_pAStream : Option AVStream
  liveAccel : List Nat
  nextAccel : Nat
  deriving DecidableEq, Repr

/-- The state and the outcome of a call. -/
abbrev Outcome (α : Type) := VideoDecoder × Except Fault α

/-! ## Operations -/

/-- The constructor `VideoDecoder::VideoDecoder()`. -/
def VideoDecoder.construct : VideoDecoder :=
  { m_State := .CLOSED
    m_pFormatContext := none
    m_sFilename := ""
    m_VStreamIndex := -1
    m_pVStream := none
    m_PF := .NO_PIXELFORMAT
    m_Size := ⟨0, 0⟩
    m_pVDPAUDecoder := none
    m_pVAAPIDecoder := none
    m_AStreamIndex := -1
    m_pAStream := none
    liveAccel := []
    nextAccel := 0 }

/-- The free function `avcodecError`: the exception it throws for error code `err`. -/
def avcodecError (w : World) (cfg : BuildConfig) (sFilename : String) (err : Int) : Fault :=
  if cfg.LIBAVFORMAT_VERSION_MAJOR > 52 then
    .exception .AVG_ERR_VIDEO_INIT_FAILED (sFilename ++ ": " ++ w.av_strerror err)
  else if err = cfg.AVERROR_INVALIDDATA then
    .exception .AVG_ERR_VIDEO_INIT_FAILED (sFilename ++ ": Error while parsing header")
  else if err = cfg.AVERROR_NOFMT then
    .exception .AVG_ERR_VIDEO_INIT_FAILED (sFilename ++ ": Unknown format")
  else
    .exception .AVG_ERR_VIDEO_INIT_FAILED
      ("'" ++ sFilename ++ "': Error while opening file (Num:" ++ toString err ++ ")")

/-- The body of `calcPixelFormat` once the codec context's `pix_fmt` is read: the
`switch` under `bUseYCbCr` (cases under `#ifdef` are taken only in a build with
that backend), then the fall-back to the default RGB format. -/
def calcPixelFormatOf (w : World) (cfg : BuildConfig) (pix_fmt : AVPixelFormat)
    (bUseYCbCr : Bool) : PixelFormat :=
  let inSwitch : Option PixelFormat :=
    if bUseYCbCr then
      match pix_fmt with
      | .PIX_FMT_YUV420P => some .YCbCr420p
      | .PIX_FMT_VDPAU_H264 => if cfg.AVG_ENABLE_VDPAU then some .YCbCr420p else none
      | .PIX_FMT_VDPAU_MPEG1 => if cfg.AVG_ENABLE_VDPAU then some .YCbCr420p else none
      | .PIX_FMT_VDPAU_MPEG2 => if cfg.AVG_ENABLE_VDPAU then some .YCbCr420p else none
      | .PIX_FMT_VDPAU_WMV3 => if cfg.AVG_ENABLE_VDPAU then some .YCbCr420p else none
      | .PIX_FMT_VDPAU_VC1 => if cfg.AVG_ENABLE_VDPAU then some .YCbCr420p else none
      | .PIX_FMT_VAAPI_VLD => if cfg.AVG_ENABLE_VAAPI then some .R8G8B8X8 else none
      | .PIX_FMT_YUVJ420P => some .YCbCrJ420p
      | .PIX_FMT_YUVA420P => some .YCbCrA420p
      | _ => none
    else none
  match inSwitch with
  | some pf => pf
  | none =>
    let bAlpha : Bool := decide (pix_fmt = .PIX_FMT_BGRA) || decide (pix_fmt = .PIX_FMT_YUVA420P)
    w.getDefaultPixelFormat bAlpha

/-- The member function `calcPixelFormat`: reads `m_pVStream->codec->pix_fmt`
(through `getCodecContext`) and resolves it. -/
def VideoDecoder.calcPixelFormat (w : World) (cfg : BuildConfig) (d : VideoDecoder)
    (bUseYCbCr : Bool) : Except Fault PixelFormat :=
  match d.m_pVStream with
  | none => .error .nullDeref
  | some s => .ok (calcPixelFormatOf w cfg s.codec.pix_fmt bUseYCbCr)

/-- The stream-scanning loop of `open`: starting from indices `(v, a)` and loop
counter `i`, each video stream sets the video index if it is still negative, each
audio stream sets the audio index if it is still negative and sound is enabled.
The loop counter converts to `int` unchanged: libavformat keeps `nb_streams`
below `INT_MAX / sizeof(AVStream*)`. -/
def findStreams (bEnableSound : Bool) : List AVStream → Nat → Int × Int → Int × Int
  | [], _, va => va
  | s :: rest, i, (v, a) =>
    match s.codec.codec_type with
    | AVMEDIA_TYPE_VIDEO =>
      findStreams bEnableSound rest (i + 1) (if v < 0 then (i : Int) else v, a)
    | AVMEDIA_TYPE_AUDIO =>
      findStreams bEnableSound rest (i + 1)
        (v, if a < 0 ∧ bEnableSound = true then (i : Int) else a)
    | _ => findStreams bEnableSound rest (i + 1) (v, a)

/-- The array read `streams[i]` with an `int` index: defined for `0 ≤ i < nb_streams`. -/
def streamAt (streams : List AVStream) (i : Int) : Option AVStream :=
  if i < 0 then none else streams[i.toNat]?

/-- The member function `openCodec`: the return code (`0` or `-1`) and the decoder
after the call.  The VDPAU block is commented out in the source; the VAAPI block
exists in a build with that backend.  What `avcodec_open2` binds inside the
library's codec context is not part of the decoder's members. -/
def VideoDecoder.openCodec (w : World) (cfg : BuildConfig) (d : VideoDecoder)
    (streamIndex : Int) (bUseHardwareAcceleration : Bool) : Outcome Int :=
  match d.m_pFormatContext with
  | none => (d, .error .nullDeref)
  | some ctx =>
    match streamAt ctx.streams streamIndex with
    | none => (d, .error .outOfBounds)
    | some st =>
      let pContext := st.codec
      let viaVAAPI : VideoDecoder × Option AVCodec :=
        if cfg.AVG_ENABLE_VAAPI = true ∧ bUseHardwareAcceleration = true then
          let h := d.nextAccel
          let d1 := { d with m_pVAAPIDecoder := some h, liveAccel := h :: d.liveAccel,
                             nextAccel := h + 1 }
          match w.vaapiOpenCodec pContext with
          | some c => (d1, some c)
          | none =>
            ({ d1 with m_pVAAPIDecoder := none, liveAccel := d1.liveAccel.erase h }, none)
        else (d, none)
      let d2 := viaVAAPI.1
      let pCodec : Option AVCodec :=
        match viaVAAPI.2 with
        | some c => some c
        | none => w.avcodec_find_decoder pContext.codec_id
      match pCodec with
      | none => (d2, .ok (-1))
      | some c =>
        let rc := w.avcodec_open2 pContext c
        if rc < 0 then (d2, .ok (-1)) else (d2, .ok 0)

/-- The part of `open` under "Enable video stream demuxing" (source lines 153-168). -/
def VideoDecoder.openVideoStream (w : World) (cfg : BuildConfig) (d : VideoDecoder)
    (sFilename : String) (bUseHardwareAcceleration : Bool) : Outcome Unit :=
  if d.m_VStreamIndex ≥ 0 then
    match d.m_pFormatContext with
    | none => (d, .error .nullDeref)
    | some ctx =>
      match streamAt ctx.streams d.m_VStreamIndex with
      | none => (d, .error .outOfBounds)
      | some st =>
        let d1 := { d with m_pVStream := some st,
                           m_Size := ⟨st.codec.width, st.codec.height⟩ }
        match d1.openCodec w cfg d1.m_VStreamIndex bUseHardwareAcceleration with
        | (d2, .error e) => (d2, .error e)
        | (d2, .ok rc) =>
          if rc = -1 then
            let d3 := { d2 with m_VStreamIndex := -1 }
            match d3.m_pVStream with
            | none => (d3, .error .nullDeref)
            | some vs =>
              let szBuf := w.avcodec_string vs.codec
              ({ d3 with m_pVStream := none },
                .error (.exception .AVG_ERR_VIDEO_INIT_FAILED
                  (sFilename ++ ": unsupported video codec (" ++ szBuf ++ ").")))
          else
            match d2.calcPixelFormat w cfg true with
            | .error e => (d2, .error e)
            | .ok pf => ({ d2 with m_PF := pf }, .ok ())
  else (d, .ok ())

/-- The part of `open` under "Enable audio stream demuxing" (source lines 169-181).
On a failed codec open the source clears `m_pAStream` first and reads
`m_pAStream->codec` afterwards. -/
def VideoDecoder.openAudioStream (w : World) (cfg : BuildConfig) (d : VideoDecoder)
    (sFilename : String) : Outcome Unit :=
  if d.m_AStreamIndex ≥ 0 then
    match d.m_pFormatContext with
    | none => (d, .error .nullDeref)
    | some ctx =>
      match streamAt ctx.streams d.m_AStreamIndex with
      | none => (d, .error .outOfBounds)
      | some st =>
        let d1 := { d with m_pAStream := some st }
        match d1.openCodec w cfg d1.m_AStreamIndex false with
        | (d2, .error e) => (d2, .error e)
        | (d2, .ok rc) =>
          if rc = -1 then
            let d3 := { d2 with m_AStreamIndex := -1, m_pAStream := none }
            match d3.m_pAStream with
            | none => (d3, .error .nullDeref)
            | some ast =>
              let szBuf := w.avcodec_string ast.codec
              (d3, .error (.exception .AVG_ERR_VIDEO_INIT_FAILED
                  (sFilename ++ ": unsupported audio codec (" ++ szBuf ++ ").")))
          else (d2, .ok ())
  else (d, .ok ())

/-- The part of `open` after the scanning loop (source lines 152-188): the video
stage, the audio stage, the check that a stream is usable, and the transition to
`OPENED`. -/
def VideoDecoder.openStreams (w : World) (cfg : BuildConfig) (d : VideoDecoder)
    (sFilename : String) (bUseHardwareAcceleration : Bool) : Outcome Unit :=
  match d.openVideoStream w cfg sFilename bUseHardwareAcceleration with
  | (d4, .error e) => (d4, .error e)
  | (d4, .ok _) =>
    match d4.openAudioStream w cfg sFilename with
    | (d5, .error e) => (d5, .error e)
    | (d5, .ok _) =>
      if d5.m_pVStream = none ∧ d5.m_pAStream = none then
        (d5, .error (.exception .AVG_ERR_VIDEO_INIT_FAILED
          (sFilename ++ ": no usable streams found.")))
      else
        ({ d5 with m_State := .OPENED }, .ok ())

/-- The member function `open(sFilename, bUseHardwareAcceleration, bEnableSound)`:
probing (source lines 93-129), the scanning loop (131-150), then `openStreams`. -/
def VideoDecoder.open (w : World) (cfg : BuildConfig) (d : VideoDecoder)
    (sFilename : String) (bUseHardwareAcceleration bEnableSound : Bool) : Outcome Unit :=
  let d0 := { d with m_sFilename := sFilename }
  let r := w.avformat_open_input sFilename
  let d1 := { d0 with m_pFormatContext := r.2 }
  if r.1 < 0 then
    ({ d1 with m_sFilename := "", m_pFormatContext := none },
      .error (avcodecError w cfg sFilename r.1))
  else
    match d1.m_pFormatContext with
    | none => (d1, .error .nullDeref)
    | some ctx0 =>
      let r2 := w.avformat_find_stream_info ctx0
      let ctx := r2.2
      let d2 := { d1 with m_pFormatContext := some ctx }
      if r2.1 < 0 then
        ({ d2 with m_sFilename := "", m_pFormatContext := none },
          .error (.exception .AVG_ERR_VIDEO_INIT_FAILED
            (sFilename ++ ": Could not find codec parameters.")))
      else if ctx.iformat_name = "image2" then
        ({ d2 with m_sFilename := "", m_pFormatContext := none },
          .error (.exception .AVG_ERR_VIDEO_INIT_FAILED
            (sFilename ++ ": Image files not supported as videos.")))
      else
        let va := findStreams bEnableSound ctx.streams 0 (-1, -1)
        let d3 := { d2 with m_VStreamIndex := va.1, m_AStreamIndex := va.2 }
        d3.openStreams w cfg sFilename bUseHardwareAcceleration

/-- The member function `startDecoding(bDeliverYCbCr, pAP)`; `pAP = none` is the
null pointer.  `avcodec_close` acts on the library's codec context only.  The two
assignments after the `throw` in the channel check are never executed. -/
def VideoDecoder.startDecoding (w : World) (cfg : BuildConfig) (d : VideoDecoder)
    (bDeliverYCbCr : Bool) (pAP : Option AudioParams) : Outcome Unit :=
  if d.m_State ≠ .OPENED then (d, .error .assertFailed)
  else
    let afterPF : Outcome Unit :=
      if d.m_VStreamIndex ≥ 0 then
        match d.calcPixelFormat w cfg bDeliverYCbCr with
        | .error e => (d, .error e)
        | .ok pf => ({ d with m_PF := pf }, .ok ())
      else (d, .ok ())
    match afterPF with
    | (d1, .error e) => (d1, .error e)
    | (d1, .ok _) =>
      let bAudioEnabled : Bool := pAP.isSome
      let d2 := if !bAudioEnabled then { d1 with m_AStreamIndex := -1, m_pAStream := none }
                else d1
      let afterChannels : Outcome Unit :=
        if d2.m_AStreamIndex ≥ 0 then
          match d2.m_pAStream, pAP with
          | some ast, some ap =>
            if ast.codec.channels > ap.m_Channels then
              (d2, .error (.exception .AVG_ERR_VIDEO_INIT_FAILED
                (d2.m_sFilename ++ ": unsupported number of audio channels (" ++
                  toString ast.codec.channels ++ ").")))
            else (d2, .ok ())
          | _, _ => (d2, .error .nullDeref)
        else (d2, .ok ())
      match afterChannels with
      | (d3, .error e) => (d3, .error e)
      | (d3, .ok _) =>
        if d3.m_pVStream = none ∧ d3.m_pAStream = none then
          (d3, .error (.exception .AVG_ERR_VIDEO_INIT_FAILED
            (d3.m_sFilename ++ ": no usable streams found.")))
        else
          ({ d3 with m_State := .DECODING }, .ok ())

/-- The member function `close()`.  It cannot fail. -/
def VideoDecoder.close (d : VideoDecoder) : VideoDecoder :=
  let d1 := if d.m_pVStream.isSome then { d with m_pVStream := none, m_VStreamIndex := -1 }
            else d
  let d2 := if d1.m_pAStream.isSome then { d1 with m_pAStream := none, m_AStreamIndex := -1 }
            else d1
  let d3 := if d2.m_pFormatContext.isSome then { d2 with m_pFormatContext := none } else d2
  { d3 with m_State := .CLOSED }

/-- The member function `getState()`. -/
def VideoDecoder.getState (d : VideoDecoder) : DecoderState := d.m_State

/-- The member function `getDuration(streamSelect)`, in the arithmetic `fl`. -/
def VideoDecoder.getDuration (fl : FloatOps) (d : VideoDecoder)
    (streamSelect : StreamSelect) : Except Fault fl.F :=
  if d.m_State = .CLOSED then .error .assertFailed
  else
    let sel : StreamSelect :=
      if streamSelect = SS_DEFAULT then
        (if d.m_pVStream.isSome then SS_VIDEO else SS_AUDIO)
      else streamSelect
    let pStream : Option AVStream := if sel = SS_VIDEO then d.m_pVStream else d.m_pAStream
    match pStream with
    | none => .error .nullDeref
    | some st =>
      let duration := st.duration
      let time_base := st.time_base
      if duration = AV_NOPTS_VALUE then .ok (fl.ofInt 0)
      else .ok (fl.mul (fl.ofInt duration) (fl.q2d time_base))

/-- The conversion `int(x)` of a 64-bit integer: the value modulo `2 ^ 32`, read as
a signed 32-bit integer. -/
def toInt32 (x : Int) : Int := (x + 2 ^ 31) % 2 ^ 32 - 2 ^ 31

/-- The member function `getStreamFPS()`, in the arithmetic `fl`. -/
def VideoDecoder.getStreamFPS (fl : FloatOps) (d : VideoDecoder) : Except Fault fl.F :=
  if d.m_State = .CLOSED then .error .assertFailed
  else
    match d.m_pVStream with
    | none => .error .nullDeref
    | some st => .ok (fl.q2d st.r_frame_rate)

/-- The member function `getNumFrames()`, in the arithmetic `fl`: the frame count of
the stream converted to `int` when that is positive, otherwise the conversion to
`int` of the product of the video duration and the frame rate. -/
def VideoDecoder.getNumFrames (fl : FloatOps) (d : VideoDecoder) : Except Fault Int :=
  if d.m_State = .CLOSED then .error .assertFailed
  else
    match d.m_pVStream with
    | none => .error .nullDeref
    | some st =>
      let numFrames := toInt32 st.nb_frames
      if numFrames > 0 then .ok numFrames
      else
        match d.getDuration fl SS_VIDEO with
        | .error e => .error e
        | .ok duration =>
          match d.getStreamFPS fl with
          | .error e => .error e
          | .ok fps => .ok (fl.toInt (fl.mul duration fps))

/-- The accelerator kinds of `VideoAccelType`, as `logConfig` and
`getHWAccelUsed` name them. -/
inductive VideoAccelType where
  | VA_NONE
  | VA_VDPAU
  | VA_VAAPI
  deriving DecidableEq, Repr

/-- What the library answers about a codec context and a pixel format when the
decoder reports on itself: the name of the decoder bound to the context by
`avcodec_open2` (`pContext->codec->name`, absent when `pContext->codec` is null)
and `av_get_pix_fmt_name`. -/
structure Introspection where
  codecName : AVCodecContext → Option String
  av_get_pix_fmt_name : AVPixelFormat → Option String

/-- The member function `getHWAccelUsed()`. -/
def VideoDecoder.getHWAccelUsed (cfg : BuildConfig) (i : Introspection) (d : VideoDecoder) :
    Except Fault VideoAccelType :=
  match d.m_pVStream with
  | none => .error .nullDeref
  | some st =>
    if (i.codecName st.codec).isSome then
      if cfg.AVG_ENABLE_VDPAU = true ∧ d.m_pVDPAUDecoder.isSome then .ok .VA_VDPAU
      else if cfg.AVG_ENABLE_VAAPI = true ∧ d.m_pVAAPIDecoder.isSome then .ok .VA_VAAPI
      else .ok .VA_NONE
    else .ok .VA_NONE

/-- The member function `getStreamPF()`: the name of the stream's pixel format, or
the empty string. -/
def VideoDecoder.getStreamPF (i : Introspection) (d : VideoDecoder) : Except Fault String :=
  match d.m_pVStream with
  | none => .error .nullDeref
  | some st =>
    match i.av_get_pix_fmt_name st.codec.pix_fmt with
    | some psz => .ok psz
    | none => .ok ""

/-- Modelled from the spec: the per-stream video detail of the Video Info value
object (`VideoInfo::setVideoData`, declared outside the sources): size, pixel
format name, frame count, frame rate, codec name, accelerator used, duration. -/
structure VideoData (F : Type) where
  m_Size : IntPoint
  m_sPixelFormat : String
  m_NumFrames : Int
  m_StreamFPS : F
  m_sVCodec : String
  m_HWAccel : VideoAccelType
  m_VideoDuration : F

/-- Modelled from the spec: the per-stream audio detail of the Video Info value
object (`VideoInfo::setAudioData`, declared outside the sources): codec name,
sample rate, channel count, duration. -/
structure AudioData (F : Type) where
  m_sACodec : String
  m_SampleRate : Int
  m_NumAudioChannels : Int
  m_AudioDuration : F

/-- Modelled from the spec: the Video Info value object (`VideoInfo`, declared
outside the sources): container format name, duration, bit rate, presence flags,
and the per-stream detail of the streams that are present. -/
structure VideoInfo (F : Type) where
  m_sContainerFormat : String
  m_Duration : F
  m_Bitrate : Int
  m_bHasVideo : Bool
  m_bHasAudio : Bool
  video : Option (VideoData F)
  audio : Option (AudioData F)

/-- The video part of `getVideoInfo()`: the arguments of `info.setVideoData`. -/
def VideoDecoder.videoData (cfg : BuildConfig) (i : Introspection) (fl : FloatOps)
    (d : VideoDecoder) (st : AVStream) : Except Fault (VideoData fl.F) :=
  match d.getStreamPF i with
  | .error e => .error e
  | .ok pf =>
    match d.getNumFrames fl with
    | .error e => .error e
    | .ok n =>
      match d.getStreamFPS fl with
      | .error e => .error e
      | .ok fps =>
        match i.codecName st.codec with
        | none => .error .nullDeref
        | some name =>
          match d.getHWAccelUsed cfg i with
          | .error e => .error e
          | .ok accel =>
            match d.getDuration fl SS_VIDEO with
            | .error e => .error e
            | .ok dur =>
              .ok { m_Size := d.m_Size, m_sPixelFormat := pf, m_NumFrames := n,
                    m_StreamFPS := fps, m_sVCodec := name, m_HWAccel := accel,
                    m_VideoDuration := dur }

/-- The audio part of `getVideoInfo()`: the arguments of `info.setAudioData`. -/
def VideoDecoder.audioData (i : Introspection) (fl : FloatOps) (d : VideoDecoder)
    (st : AVStream) : Except Fault (AudioData fl.F) :=
  match i.codecName st.codec with
  | none => .error .nullDeref
  | some name =>
    match d.getDuration fl SS_AUDIO with
    | .error e => .error e
    | .ok dur =>
      .ok { m_sACodec := name, m_SampleRate := st.codec.sample_rate,
            m_NumAudioChannels := st.codec.channels, m_AudioDuration := dur }

/-- The member function `getVideoInfo()`: the state assertion, the assertion that
a video or an audio stream is present, then the snapshot. -/
def VideoDecoder.getVideoInfo (cfg : BuildConfig) (i : Introspection) (fl : FloatOps)
    (d : VideoDecoder) : Except Fault (VideoInfo fl.F) :=
  if d.m_State = .CLOSED then .error .assertFailed
  else if d.m_pVStream = none ∧ d.m_pAStream = none then .error .assertFailed
  else
    match d.getDuration fl SS_DEFAULT with
    | .error e => .error e
    | .ok duration =>
      match d.m_pFormatContext with
      | none => .error .nullDeref
      | some ctx =>
        let video : Except Fault (Option (VideoData fl.F)) :=
          match d.m_pVStream with
          | none => .ok none
          | some st =>
            match d.videoData cfg i fl st with
            | .error e => .error e
            | .ok v => .ok (some v)
        match video with
        | .error e => .error e
        | .ok v =>
          let audio : Except Fault (Option (AudioData fl.F)) :=
            match d.m_pAStream with
            | none => .ok none
            | some st =>
              match d.audioData i fl st with
              | .error e => .error e
              | .ok a => .ok (some a)
          match audio with
          | .error e => .error e
          | .ok a =>
            .ok { m_sContainerFormat := ctx.iformat_name, m_Duration := duration,
                  m_Bitrate := ctx.bit_rate, m_bHasVideo := d.m_pVStream.isSome,
                  m_bHasAudio := d.m_pAStream.isSome, video := v, audio := a }

/-! ## The state animation of `src/anim/StateAnim.cpp` -/

/-- The record `AnimState`: a state name, the child animation (`AnimPtr`, a shared
pointer: the number identifies the animation object, `none` is the null pointer)
and the name of the state that follows. -/
structure AnimState where
  m_sName : String
  m_pAnim : Option Nat
  m_sNextName : String
  deriving DecidableEq, Repr

/-- The default constructor `AnimState::AnimState()`. -/
def AnimState.empty : AnimState := { m_sName := "", m_pAnim := none, m_sNextName := "" }

/-- The lookup `std::map::find`. -/
def mapFind (m : List (String × AnimState)) (k : String) : Option AnimState :=
  match m with
  | [] => none
  | (k', v) :: rest => if k' = k then some v else mapFind rest k

/-- The assignment `m[k] = v` of `std::map`: replaces the entry of `k` or adds one. -/
def mapSet (m : List (String × AnimState)) (k : String) (v : AnimState) :
    List (String × AnimState) :=
  match m with
  | [] => [(k, v)]
  | (k', v') :: rest => if k' = k then (k, v) :: rest else (k', v') :: mapSet rest k v

/-- The read `m[k]` of `std::map`: the entry of `k`, after adding a default-constructed
one when there is none. -/
def mapIndex (m : List (String × AnimState)) (k : String) :
    AnimState × List (String × AnimState) :=
  match mapFind m k with
  | some v => (v, m)
  | none => (AnimState.empty, mapSet m k AnimState.empty)

/-- The member variables of `StateAnim`. -/
structure StateAnim where
  m_States : List (String × AnimState)
  m_bDebug : Bool
  m_sCurStateName : String
  deriving DecidableEq, Repr

/-- What the collaborators of a `StateAnim` answer during one call: whether the
player is playing, and for the child animation with a given number whether it is
running, what its `step()` returns, and whether its `start(bKeepAttr)` and
`abort()` return or throw; and whether `Anim::start(false)` of the base class
returns or throws. -/
structure AnimEnv where
  isPlaying : Bool
  childIsRunning : Nat → Bool
  childStep : Nat → Except Fault Bool
  childStart : Nat → Bool → Except Fault Unit
  childAbort : Nat → Except Fault Unit
  baseStart : Except Fault Unit

/-- The loop of the constructor `StateAnim::StateAnim(states)`: enters every state
under its name (a later state of the same name replaces the earlier one) and
marks its child animation, which it reads through the pointer. -/
def StateAnim.enterStates (m : List (String × AnimState)) :
    List AnimState → Except Fault (List (String × AnimState))
  | [] => .ok m
  | st :: rest =>
    match st.m_pAnim with
    | none => .error .nullDeref
    | some _ => StateAnim.enterStates (mapSet m st.m_sName st) rest

/-- The constructor `StateAnim::StateAnim(states)`. -/
def StateAnim.construct (states : List AnimState) : Except Fault StateAnim :=
  match StateAnim.enterStates [] states with
  | .error e => .error e
  | .ok m => .ok { m_States := m, m_bDebug := false, m_sCurStateName := "" }

/-- The member function `getState()`. -/
def StateAnim.getState (sa : StateAnim) : String := sa.m_sCurStateName

/-- The member function `switchToNewState(sName, bKeepAttr)`: the current state name
is assigned first, the lookup of `sName` comes after it. -/
def StateAnim.switchToNewState (env : AnimEnv) (sa : StateAnim) (sName : String)
    (bKeepAttr : Bool) : StateAnim × Except Fault Unit :=
  let sOldStateName := sa.m_sCurStateName
  let sa1 := { sa with m_sCurStateName := sName }
  if sName ≠ "" then
    match mapFind sa1.m_States sName with
    | none =>
      (sa1, .error (.exception .AVG_ERR_INVALID_ARGS
        ("StateAnim: State " ++ sName ++ " unknown.")))
    | some st =>
      match st.m_pAnim with
      | none => (sa1, .error .nullDeref)
      | some a =>
        match env.childStart a bKeepAttr with
        | .error e => (sa1, .error e)
        | .ok _ =>
          if sOldStateName = "" then
            match env.baseStart with
            | .error e => (sa1, .error e)
            | .ok _ => (sa1, .ok ())
          else (sa1, .ok ())
  else (sa1, .ok ())

/-- The member function `setState(sName, bKeepAttr)`. -/
def StateAnim.setState (env : AnimEnv) (sa : StateAnim) (sName : String)
    (bKeepAttr : Bool) : StateAnim × Except Fault Unit :=
  if sa.m_sCurStateName = sName then (sa, .ok ())
  else if !env.isPlaying then
    (sa, .error (.exception .AVG_ERR_UNSUPPORTED
      "Animation playback can only be started when the player is running."))
  else if sa.m_sCurStateName ≠ "" then
    let r := mapIndex sa.m_States sa.m_sCurStateName
    let sa1 := { sa with m_States := r.2 }
    match r.1.m_pAnim with
    | none => (sa1, .error .nullDeref)
    | some a =>
      match env.childAbort a with
      | .error e => (sa1, .error e)
      | .ok _ => sa1.switchToNewState env sName bKeepAttr
  else sa.switchToNewState env sName bKeepAttr

/-- The member function `abort()`. -/
def StateAnim.abort (env : AnimEnv) (sa : StateAnim) : StateAnim × Except Fault Unit :=
  sa.setState env "" false

/-- The member function `step()`. -/
def StateAnim.step (env : AnimEnv) (sa : StateAnim) : StateAnim × Except Fault Bool :=
  if sa.m_sCurStateName ≠ "" then
    let r := mapIndex sa.m_States sa.m_sCurStateName
    let curState := r.1
    let sa1 := { sa with m_States := r.2 }
    match curState.m_pAnim with
    | none => (sa1, .error .nullDeref)
    | some a =>
      let bDone : Except Fault Bool :=
        if env.childIsRunning a then env.childStep a else .ok true
      match bDone with
      | .error e => (sa1, .error e)
      | .ok true =>
        match sa1.switchToNewState env curState.m_sNextName false with
        | (sa2, .error e) => (sa2, .error e)
        | (sa2, .ok _) => (sa2, .ok false)
      | .ok false => (sa1, .ok false)
  else (sa, .ok false)

/-! ## Reachable states -/

/-- The decoder states that calls of `open`, `startDecoding` and `close` produce
from a freshly constructed decoder, whatever the library answers and whether a
call returns or throws; a call that ends the process produces no state. -/
inductive Reachable (cfg : BuildConfig) : VideoDecoder → Prop where
  | construct : Reachable cfg VideoDecoder.construct
  | open (w : World) (d : VideoDecoder) (fn : String) (hw snd : Bool) :
      Reachable cfg d → survived (d.open w cfg fn hw snd).2 = true →
      Reachable cfg (d.open w cfg fn hw snd).1
  | startDecoding (w : World) (d : VideoDecoder) (b : Bool) (pAP : Option AudioParams) :
      Reachable cfg d → survived (d.startDecoding w cfg b pAP).2 = true →
      Reachable cfg (d.startDecoding w cfg b pAP).1
  | close (d : VideoDecoder) : Reachable cfg d → Reachable cfg d.close

/-- An absent video descriptor goes with video index `-1`. -/
def VideoConsistent (d : VideoDecoder) : Prop :=
  d.m_pVStream = none → d.m_VStreamIndex = -1

/-- A `CLOSED` decoder holds no stream descriptor. -/
def ClosedClean (d : VideoDecoder) : Prop :=
  d.m_State = .CLOSED → d.m_pVStream = none ∧ d.m_pAStream = none

/-! ## Specification-side vocabulary -/

/-- The rank of a lifecycle state in the order `CLOSED < OPENED < DECODING`. -/
def DecoderState.rank : DecoderState → Nat
  | .CLOSED => 0
  | .OPENED => 1
  | .DECODING => 2

/-- The index `idx` is the smallest index of `streams` whose stream has media type
`t`, or `-1` when `streams` has no stream of that type. -/
def IsFirstOfType (t : AVMediaType) (streams : List AVStream) (idx : Int) : Prop :=
  (idx = -1 ∧ ∀ s ∈ streams, s.codec.codec_type ≠ t) ∨
  (∃ i : Nat, idx = (i : Int) ∧ (∃ s, streams[i]? = some s ∧ s.codec.codec_type = t) ∧
    ∀ j : Nat, j < i → ∀ s, streams[j]? = some s → s.codec.codec_type ≠ t)

/-- Scanning from counter `i`: the first index at or after `i` of a stream of type
`t`, or `dflt`. -/
def firstFrom (t : AVMediaType) : List AVStream → Nat → Int → Int
  | [], _, dflt => dflt
  | s :: rest, i, dflt => if s.codec.codec_type = t then (i : Int) else firstFrom t rest (i + 1) dflt

/-- The reference resolver as the specification words it: under `preferYCbCr` the
three planar 4:2:0 sources map to their YCbCr formats; every other case is the
default RGB format, with alpha exactly for `BGRA` and `YUVA420P`. -/
def calcPixelFormatReference (w : World) (f : AVPixelFormat) (preferYCbCr : Bool) :
    PixelFormat :=
  if preferYCbCr = true ∧ f = .PIX_FMT_YUV420P then .YCbCr420p
  else if preferYCbCr = true ∧ f = .PIX_FMT_YUVJ420P then .YCbCrJ420p
  else if preferYCbCr = true ∧ f = .PIX_FMT_YUVA420P then .YCbCrA420p
  else w.getDefaultPixelFormat (decide (f = .PIX_FMT_BGRA ∨ f = .PIX_FMT_YUVA420P))

/-- The source formats tagged for the VDPAU accelerator. -/
def isVDPAUFormat (f : AVPixelFormat) : Bool :=
  match f with
  | .PIX_FMT_VDPAU_H264 => true
  | .PIX_FMT_VDPAU_MPEG1 => true
  | .PIX_FMT_VDPAU_MPEG2 => true
  | .PIX_FMT_VDPAU_WMV3 => true
  | .PIX_FMT_VDPAU_VC1 => true
  | _ => false

/-! ## Concrete collaborators, for evaluating the operations -/

/-- A stream of media type `t` with codec id `id` and `ch` audio channels. -/
def demoStream (t : AVMediaType) (id : Nat) (ch : Int) : AVStream :=
  { codec := { codec_type := t, codec_id := id, width := 320, height := 240,
               pix_fmt := .PIX_FMT_YUV420P, channels := ch, sample_rate := 44100 }
    duration := 1000
    time_base := ⟨1, 25⟩
    nb_frames := 0
    r_frame_rate := ⟨25, 1⟩ }

/-- A container of format `name` with stream table `streams`. -/
def demoContainer (name : String) (streams : List AVStream) : AVFormatContext :=
  { iformat_name := name, streams := streams, bit_rate := 128000 }

/-- A library in which every path opens with code `openErr` to `file`, probing
answers `infoErr`, decoders exist for the codec ids below `100` and always open,
and the VAAPI backend opens the codec ids below `vaapiBelow`. -/
def demoWorld (openErr : Int) (file : Option AVFormatContext) (infoErr : Int)
    (vaapiBelow : Nat) : World :=
  { avformat_open_input := fun _ => (openErr, file)
    avformat_find_stream_info := fun c => (infoErr, c)
    avcodec_find_decoder := fun id => if id < 100 then some ⟨"sw"⟩ else none
    avcodec_open2 := fun _ _ => 0
    avcodec_string := fun c => "codec " ++ toString c.codec_id
    av_strerror := fun e => "error " ++ toString e
    vaapiOpenCodec := fun c => if c.codec_id < vaapiBelow then some ⟨"vaapi"⟩ else none
    getDefaultPixelFormat := fun bAlpha => if bAlpha then .B8G8R8A8 else .B8G8R8X8 }

/-- A library in which every path opens to `file` and probes successfully. -/
def demoLib (file : AVFormatContext) : World := demoWorld 0 (some file) 0 0

/-- A build with the given accelerator backends and a current libavformat. -/
def demoBuild (vdpau vaapi : Bool) : BuildConfig :=
  { AVG_ENABLE_VDPAU := vdpau, AVG_ENABLE_VAAPI := vaapi, LIBAVFORMAT_VERSION_MAJOR := 54,
    AVERROR_INVALIDDATA := -1094995529, AVERROR_NOFMT := -6 }

/-- Exact rational arithmetic standing in for `float` when an operation is
evaluated on concrete data (a quotient by zero is `0`). -/
def demoFloat : FloatOps :=
  { F := Rat
    ofInt := fun n => (n : Rat)
    q2d := fun r => (r.num : Rat) / (r.den : Rat)
    mul := fun x y => x * y
    toInt := fun x => x.num / (x.den : Int) }

/-- A container with a subtitle stream, two video streams and two audio streams
(the first audio stream has six channels). -/
def demoMovie : AVFormatContext :=
  demoContainer "avi"
    [demoStream AVMEDIA_TYPE_SUBTITLE 7 0, demoStream AVMEDIA_TYPE_VIDEO 1 0,
     demoStream AVMEDIA_TYPE_AUDIO 2 6, demoStream AVMEDIA_TYPE_VIDEO 3 0,
     demoStream AVMEDIA_TYPE_AUDIO 4 2]

/-- The decoder after `open("movie.avi", false, true)` on `demoMovie`: stream 1 is
the video stream, stream 2 (six channels) the audio stream. -/
def demoOpened : VideoDecoder :=
  (VideoDecoder.construct.open (demoLib demoMovie) (demoBuild false false)
    "movie.avi" false true).1

/-- A container whose only stream is an audio stream with a codec (id `200`) that
has no decoder. -/
def demoBadAudio : AVFormatContext :=
  demoContainer "wav" [demoStream AVMEDIA_TYPE_AUDIO 200 2]

/-- A container whose only stream is a video stream with a codec (id `200`) that
has no decoder. -/
def demoBadVideo : AVFormatContext :=
  demoContainer "avi" [demoStream AVMEDIA_TYPE_VIDEO 200 0]

/-- A container with a video stream whose codec (id `200`) has no decoder, followed
by an audio stream with a supported codec. -/
def demoBadVideoWithAudio : AVFormatContext :=
  demoContainer "avi" [demoStream AVMEDIA_TYPE_VIDEO 200 0, demoStream AVMEDIA_TYPE_AUDIO 2 2]

/-- A video stream of unknown duration whose time base has denominator zero. -/
def demoUnknownStream : AVStream :=
  { demoStream AVMEDIA_TYPE_VIDEO 1 0 with duration := AV_NOPTS_VALUE, time_base := ⟨1, 0⟩ }

/-- The decoder after `open("live.ts", false, false)` on a container whose only
stream is `demoUnknownStream`. -/
def demoUnknownDuration : VideoDecoder :=
  (VideoDecoder.construct.open (demoLib (demoContainer "mpegts" [demoUnknownStream]))
    (demoBuild false false) "live.ts" false false).1

/-- A container whose only stream is an audio stream (two channels, codec id `2`). -/
def demoAudioOnly : AVFormatContext :=
  demoContainer "wav" [demoStream AVMEDIA_TYPE_AUDIO 2 2]

/-- The decoder after `open("song.wav", false, true)` on `demoAudioOnly`. -/
def demoAudioOpened : VideoDecoder :=
  (VideoDecoder.construct.open (demoLib demoAudioOnly) (demoBuild false false)
    "song.wav" false true).1

/-- The decoder after `open` (sound disabled) on a container whose only stream is a
video stream with container-reported frame count `n`. -/
def demoCounted (n : Int) : VideoDecoder :=
  (VideoDecoder.construct.open
    (demoLib (demoContainer "avi" [{ demoStream AVMEDIA_TYPE_VIDEO 1 0 with nb_frames := n }]))
    (demoBuild false false) "count.avi" false false).1

/-- A container with a video stream that has a decoder, followed by an audio stream
whose codec (id `200`) has none. -/
def demoVideoWithBadAudio : AVFormatContext :=
  demoContainer "avi" [demoStream AVMEDIA_TYPE_VIDEO 1 0, demoStream AVMEDIA_TYPE_AUDIO 200 2]

/-- A library in which every path opens to `file`, and the VAAPI backend opens
every codec id below `100`. -/
def demoAccelLib (file : AVFormatContext) : World := demoWorld 0 (some file) 0 100

/-- The decoder in state `DECODING`: the opened `demoMovie` after
`startDecoding(true, 0)`. -/
def demoDecoding : VideoDecoder :=
  (demoOpened.startDecoding (demoLib demoMovie) (demoBuild false false) true none).1

/-- The audio-only decoder after `startDecoding(true, 0)`, which throws. -/
def demoAudioStarted : VideoDecoder :=
  (demoAudioOpened.startDecoding (demoLib demoAudioOnly) (demoBuild false false) true none).1

/-- One `open` with hardware acceleration followed by `close`, in a build with the
VAAPI backend, from decoder `d`. -/
def demoAccelCycle (d : VideoDecoder) : VideoDecoder :=
  (d.open (demoAccelLib demoMovie) (demoBuild false true) "movie.avi" true true).1.close

/-- Library answers for `getVideoInfo`: every codec context has a decoder named
`"sw"`, every pixel format the name `"yuv420p"`. -/
def demoIntrospection : Introspection :=
  { codecName := fun _ => some "sw", av_get_pix_fmt_name := fun _ => some "yuv420p" }

/-- Collaborators of a `StateAnim` while the player is running: every child
animation is running and not done, and every call returns. -/
def demoAnimEnv : AnimEnv :=
  { isPlaying := true
    childIsRunning := fun _ => true
    childStep := fun _ => .ok false
    childStart := fun _ _ => .ok ()
    childAbort := fun _ => .ok ()
    baseStart := .ok () }

/-- The same collaborators, with child animations that are done at each step. -/
def demoAnimEnvDone : AnimEnv := { demoAnimEnv with childStep := fun _ => .ok true }

/-- The states `idle` (followed by `busy`) and `busy`. -/
def demoAnimStates : List AnimState :=
  [{ m_sName := "idle", m_pAnim := some 0, m_sNextName := "busy" },
   { m_sName := "busy", m_pAnim := some 1, m_sNextName := "" }]

/-- The object `StateAnim(demoAnimStates)`. -/
def demoStateAnim : StateAnim :=
  { m_States := [("idle", { m_sName := "idle", m_pAnim := some 0, m_sNextName := "busy" }),
                 ("busy", { m_sName := "busy", m_pAnim := some 1, m_sNextName := "" })]
    m_bDebug := false
    m_sCurStateName := "" }

/-- A single state `idle` whose follower `gone` is not a state. -/
def demoDanglingStates : List AnimState :=
  [{ m_sName := "idle", m_pAnim := some 0, m_sNextName := "gone" }]

/-- The object `StateAnim(demoDanglingStates)`. -/
def demoDanglingAnim : StateAnim :=
  { m_States := [("idle", { m_sName := "idle", m_pAnim := some 0, m_sNextName := "gone" })]
    m_bDebug := false
    m_sCurStateName := "" }

/-! # Theorems -/

/-! ## The scanning loop of `open` -/

/-- The video index after the loop: the first video stream at or after the counter
when the index was still negative, the old index otherwise. -/
theorem findStreams_fst (snd : Bool) (l : List AVStream) (i : Nat) (v a : Int) :
    (findStreams snd l i (v, a)).1 =
      if v < 0 then firstFrom AVMEDIA_TYPE_VIDEO l i v else v := by
  induction l generalizing i v a with
  | nil => simp [findStreams, firstFrom]
  | cons s rest ih =>
    cases hty : s.codec.codec_type <;> simp [findStreams, firstFrom, hty, ih]
    case AVMEDIA_TYPE_VIDEO =>
      by_cases hv : v < 0
      · simp [hv]
      · simp [hv]

/-- The audio index after the loop with sound enabled: the first audio stream at or
after the counter when the index was still negative, the old index otherwise. -/
theorem findStreams_snd_enabled (l : List AVStream) (i : Nat) (v a : Int) :
    (findStreams true l i (v, a)).2 =
      if a < 0 then firstFrom AVMEDIA_TYPE_AUDIO l i a else a := by
  induction l generalizing i v a with
  | nil => simp [findStreams, firstFrom]
  | cons s rest ih =>
    cases hty : s.codec.codec_type <;> simp [findStreams, firstFrom, hty, ih]
    case AVMEDIA_TYPE_AUDIO =>
      by_cases ha : a < 0
      · simp [ha]
      · simp [ha]

/-- With sound disabled the loop leaves the audio index alone. -/
theorem findStreams_snd_disabled (l : List AVStream) (i : Nat) (v a : Int) :
    (findStreams false l i (v, a)).2 = a := by
  induction l generalizing i v a with
  | nil => simp [findStreams]
  | cons s rest ih =>
    cases hty : s.codec.codec_type <;> simp [findStreams, hty, ih]

/-- The scan from counter `i` finds nothing and no stream has the type, or it finds
the `k`-th stream, which has the type while no earlier one has. -/
theorem firstFrom_spec (t : AVMediaType) (l : List AVStream) (i : Nat) :
    (firstFrom t l i (-1) = -1 ∧ ∀ s ∈ l, s.codec.codec_type ≠ t) ∨
    (∃ k : Nat, firstFrom t l i (-1) = ((i + k : Nat) : Int) ∧
      (∃ s, l[k]? = some s ∧ s.codec.codec_type = t) ∧
      ∀ j : Nat, j < k → ∀ s, l[j]? = some s → s.codec.codec_type ≠ t) := by
  induction l generalizing i with
  | nil => left; simp [firstFrom]
  | cons s rest ih =>
    by_cases hty : s.codec.codec_type = t
    · right
      refine ⟨0, by simp [firstFrom, hty], ⟨s, by simp, hty⟩, ?_⟩
      intro j hj; omega
    · rcases ih (i + 1) with ⟨h1, h2⟩ | ⟨k, h1, ⟨s', hs', hs't⟩, h3⟩
      · left
        refine ⟨by simp [firstFrom, hty, h1], ?_⟩
        intro s0 hs0
        rcases List.mem_cons.mp hs0 with rfl | hmem
        · exact hty
        · exact h2 s0 hmem
      · right
        refine ⟨k + 1, ?_, ⟨s', by simpa using hs', hs't⟩, ?_⟩
        · simp [firstFrom, hty, h1]; omega
        · intro j hj s0 hs0
          cases j with
          | zero =>
            simp at hs0
            subst hs0
            exact hty
          | succ j' =>
            simp at hs0
            exact h3 j' (by omega) s0 hs0

/-- The scan from counter `0` computes the smallest index of the type, or `-1`. -/
theorem firstFrom_isFirst (t : AVMediaType) (l : List AVStream) :
    IsFirstOfType t l (firstFrom t l 0 (-1)) := by
  rcases firstFrom_spec t l 0 with ⟨h1, h2⟩ | ⟨k, h1, h2, h3⟩
  · exact Or.inl ⟨h1, h2⟩
  · exact Or.inr ⟨k, by simpa using h1, h2, h3⟩

/-- A table with a stream of type `t` has a first index of that type. -/
theorem firstFrom_nonneg (t : AVMediaType) (l : List AVStream)
    (h : ∃ s ∈ l, s.codec.codec_type = t) : 0 ≤ firstFrom t l 0 (-1) := by
  obtain ⟨s, hs, hty⟩ := h
  rcases firstFrom_isFirst t l with ⟨-, hnone⟩ | ⟨i, hi, -, -⟩
  · exact absurd hty (hnone s hs)
  · rw [hi]
    omega

/-- A first index is `-1` or the index of a stream of the table. -/
theorem isFirstOfType_valid (t : AVMediaType) (l : List AVStream) (idx : Int)
    (h : IsFirstOfType t l idx) :
    idx = -1 ∨ (0 ≤ idx ∧ ∃ st, streamAt l idx = some st) := by
  rcases h with ⟨h, -⟩ | ⟨i, hi, ⟨s, hs, -⟩, -⟩
  · exact Or.inl h
  · right
    subst hi
    refine ⟨by omega, s, ?_⟩
    have : ¬ ((i : Int) < 0) := by omega
    simpa [streamAt, this] using hs

/-- Each index the loop computes is `-1` or the index of a stream of the table. -/
theorem findStreams_valid (snd : Bool) (l : List AVStream) :
    ((findStreams snd l 0 (-1, -1)).1 = -1 ∨
      (0 ≤ (findStreams snd l 0 (-1, -1)).1 ∧
        ∃ st, streamAt l (findStreams snd l 0 (-1, -1)).1 = some st)) ∧
    ((findStreams snd l 0 (-1, -1)).2 = -1 ∨
      (0 ≤ (findStreams snd l 0 (-1, -1)).2 ∧
        ∃ st, streamAt l (findStreams snd l 0 (-1, -1)).2 = some st)) := by
  constructor
  · apply isFirstOfType_valid AVMEDIA_TYPE_VIDEO
    rw [findStreams_fst]
    simpa using firstFrom_isFirst _ _
  · cases snd
    · left; rw [findStreams_snd_disabled]
    · apply isFirstOfType_valid AVMEDIA_TYPE_AUDIO
      rw [findStreams_snd_enabled]
      simpa using firstFrom_isFirst _ _

/-- A table without video and audio streams leaves both indices alone. -/
theorem findStreams_none (snd : Bool) (l : List AVStream) (i : Nat) (va : Int × Int)
    (h : ∀ s ∈ l, s.codec.codec_type ≠ AVMEDIA_TYPE_VIDEO ∧
      s.codec.codec_type ≠ AVMEDIA_TYPE_AUDIO) :
    findStreams snd l i va = va := by
  induction l generalizing i va with
  | nil => simp [findStreams]
  | cons s rest ih =>
    obtain ⟨v, a⟩ := va
    have hs := h s (List.mem_cons_self _ _)
    have hrest : ∀ s ∈ rest, s.codec.codec_type ≠ AVMEDIA_TYPE_VIDEO ∧
        s.codec.codec_type ≠ AVMEDIA_TYPE_AUDIO :=
      fun s' hs' => h s' (List.mem_cons_of_mem _ hs')
    cases hty : s.codec.codec_type <;> simp [findStreams, hty, ih _ _ hrest] <;> simp [hty] at hs

/-! ## The stages of `open` -/

/-- The fields `openCodec` leaves alone: everything but the accelerator pointer and
its heap accounting. -/
theorem openCodec_frame (w : World) (cfg : BuildConfig) (d : VideoDecoder) (idx : Int)
    (hw : Bool) (oc : Outcome Int) (h : d.openCodec w cfg idx hw = oc) :
    ∃ p l n, oc.1 = { d with m_pVAAPIDecoder := p, liveAccel := l, nextAccel := n } := by
  subst h
  unfold VideoDecoder.openCodec
  split
  · exact ⟨_, _, _, rfl⟩
  · split
    · exact ⟨_, _, _, rfl⟩
    · dsimp only
      split <;> split <;> (try split) <;> (try split) <;> exact ⟨_, _, _, rfl⟩

/-- On a stream of the held container `openCodec` returns a code. -/
theorem openCodec_returns (w : World) (cfg : BuildConfig) (d : VideoDecoder) (idx : Int)
    (hw : Bool) (oc : Outcome Int) (h : d.openCodec w cfg idx hw = oc)
    (ctx : AVFormatContext) (st : AVStream) (hctx : d.m_pFormatContext = some ctx)
    (hst : streamAt ctx.streams idx = some st) :
    ∃ rc, oc.2 = .ok rc := by
  subst h
  unfold VideoDecoder.openCodec
  simp only [hctx, hst]
  split
  · exact ⟨_, rfl⟩
  · split <;> exact ⟨_, rfl⟩

/-- Without the VAAPI backend, or without hardware acceleration requested,
`openCodec` creates no accelerator object. -/
theorem openCodec_no_accel (w : World) (cfg : BuildConfig) (d : VideoDecoder) (idx : Int)
    (hw : Bool) (h : cfg.AVG_ENABLE_VAAPI = false ∨ hw = false) :
    (d.openCodec w cfg idx hw).1 = d := by
  have hc : ¬ (cfg.AVG_ENABLE_VAAPI = true ∧ hw = true) := by
    rcases h with h | h <;> simp [h]
  unfold VideoDecoder.openCodec
  split
  · rfl
  · split
    · rfl
    · simp only [hc, if_false]
      split
      · rfl
      · split <;> rfl

/-- A successful video stage keeps both indices, the audio pointer, the state, the
container handle and the filename; the video pointer is set when an index was
found and kept otherwise. -/
theorem openVideoStream_ok (w : World) (cfg : BuildConfig) (d d' : VideoDecoder)
    (fn : String) (hw : Bool) (h : d.openVideoStream w cfg fn hw = (d', .ok ())) :
    d'.m_VStreamIndex = d.m_VStreamIndex ∧ d'.m_AStreamIndex = d.m_AStreamIndex ∧
    d'.m_pAStream = d.m_pAStream ∧ d'.m_State = d.m_State ∧
    d'.m_pFormatContext = d.m_pFormatContext ∧ d'.m_sFilename = d.m_sFilename ∧
    (0 ≤ d.m_VStreamIndex → d'.m_pVStream ≠ none) ∧
    (d.m_VStreamIndex < 0 → d'.m_pVStream = d.m_pVStream) := by
  unfold VideoDecoder.openVideoStream at h
  split at h
  · split at h
    · simp at h
    · split at h
      · simp at h
      · dsimp only at h
        split at h
        · simp at h
        · rename_i hoc
          obtain ⟨p, l, n, hfr⟩ := openCodec_frame _ _ _ _ _ _ hoc
          dsimp only at hfr
          subst hfr
          split at h
          · split at h <;> simp at h
          · simp only [VideoDecoder.calcPixelFormat] at h
            simp at h
            subst h
            simp
            omega
  · simp at h
    subst h
    simp
    omega

/-- A successful audio stage keeps both indices, the video pointer, the state, the
container handle and the filename; the audio pointer is set when an index was
found and kept otherwise. -/
theorem openAudioStream_ok (w : World) (cfg : BuildConfig) (d d' : VideoDecoder)
    (fn : String) (h : d.openAudioStream w cfg fn = (d', .ok ())) :
    d'.m_VStreamIndex = d.m_VStreamIndex ∧ d'.m_AStreamIndex = d.m_AStreamIndex ∧
    d'.m_pVStream = d.m_pVStream ∧ d'.m_State = d.m_State ∧
    d'.m_pFormatContext = d.m_pFormatContext ∧ d'.m_sFilename = d.m_sFilename ∧
    (0 ≤ d.m_AStreamIndex → d'.m_pAStream ≠ none) ∧
    (d.m_AStreamIndex < 0 → d'.m_pAStream = d.m_pAStream) := by
  unfold VideoDecoder.openAudioStream at h
  split at h
  · split at h
    · simp at h
    · split at h
      · simp at h
      · dsimp only at h
        split at h
        · simp at h
        · rename_i hoc
          obtain ⟨p, l, n, hfr⟩ := openCodec_frame _ _ _ _ _ _ hoc
          dsimp only at hfr
          subst hfr
          split at h
          · simp at h
          · simp at h
            subst h
            simp
            omega
  · simp at h
    subst h
    simp
    omega

/-- Whatever its outcome, the video stage of `open` leaves the video descriptor
and index in agreement and does not touch the audio fields, the container handle
or the state. -/
theorem openVideoStream_post (w : World) (cfg : BuildConfig) (d : VideoDecoder)
    (fn : String) (hw : Bool) (ctx : AVFormatContext)
    (hctx : d.m_pFormatContext = some ctx)
    (hidx : d.m_VStreamIndex = -1 ∨
      (0 ≤ d.m_VStreamIndex ∧ ∃ st, streamAt ctx.streams d.m_VStreamIndex = some st)) :
    ((d.openVideoStream w cfg fn hw).1.m_pVStream = none →
        (d.openVideoStream w cfg fn hw).1.m_VStreamIndex = -1) ∧
      (d.openVideoStream w cfg fn hw).1.m_AStreamIndex = d.m_AStreamIndex ∧
      (d.openVideoStream w cfg fn hw).1.m_pAStream = d.m_pAStream ∧
      (d.openVideoStream w cfg fn hw).1.m_pFormatContext = some ctx ∧
      (d.openVideoStream w cfg fn hw).1.m_State = d.m_State := by
  unfold VideoDecoder.openVideoStream
  rcases hidx with h | ⟨h0, st, hst⟩
  · simp [h, hctx]
  · simp only [ge_iff_le, h0, if_true, hctx, hst]
    split
    · rename_i hoc
      obtain ⟨p, l, n, hfr⟩ := openCodec_frame _ _ _ _ _ _ hoc
      dsimp only at hfr
      subst hfr
      simp
    · rename_i hoc
      obtain ⟨p, l, n, hfr⟩ := openCodec_frame _ _ _ _ _ _ hoc
      dsimp only at hfr
      subst hfr
      split
      · simp
      · simp [VideoDecoder.calcPixelFormat]

/-- Whatever its outcome, the audio stage of `open` leaves the audio descriptor
and index in agreement and does not touch the video fields, the container handle
or the state. -/
theorem openAudioStream_post (w : World) (cfg : BuildConfig) (d : VideoDecoder)
    (fn : String) (ctx : AVFormatContext)
    (hctx : d.m_pFormatContext = some ctx)
    (hidx : d.m_AStreamIndex = -1 ∨
      (0 ≤ d.m_AStreamIndex ∧ ∃ st, streamAt ctx.streams d.m_AStreamIndex = some st)) :
    ((d.openAudioStream w cfg fn).1.m_pAStream = none →
        (d.openAudioStream w cfg fn).1.m_AStreamIndex = -1) ∧
      (d.openAudioStream w cfg fn).1.m_VStreamIndex = d.m_VStreamIndex ∧
      (d.openAudioStream w cfg fn).1.m_pVStream = d.m_pVStream ∧
      (d.openAudioStream w cfg fn).1.m_pFormatContext = some ctx ∧
      (d.openAudioStream w cfg fn).1.m_State = d.m_State := by
  unfold VideoDecoder.openAudioStream
  rcases hidx with h | ⟨h0, st, hst⟩
  · simp [h, hctx]
  · simp only [ge_iff_le, h0, if_true, hctx, hst]
    split
    · rename_i hoc
      obtain ⟨p, l, n, hfr⟩ := openCodec_frame _ _ _ _ _ _ hoc
      dsimp only at hfr
      subst hfr
      simp
    · rename_i hoc
      obtain ⟨p, l, n, hfr⟩ := openCodec_frame _ _ _ _ _ _ hoc
      dsimp only at hfr
      subst hfr
      split <;> simp

/-- When the video stage throws, the video descriptor is absent afterwards. -/
theorem openVideoStream_thrown (w : World) (cfg : BuildConfig) (d : VideoDecoder)
    (fn : String) (hw : Bool) (f : Fault)
    (herr : (d.openVideoStream w cfg fn hw).2 = .error f) (hf : f.isCrash = false) :
    (d.openVideoStream w cfg fn hw).1.m_pVStream = none := by
  unfold VideoDecoder.openVideoStream at herr ⊢
  by_cases hv : d.m_VStreamIndex ≥ 0
  · simp only [hv, if_true] at herr ⊢
    rcases hctx : d.m_pFormatContext with _ | ctx
    · simp only [hctx] at herr
      simp at herr
      subst herr
      simp [Fault.isCrash] at hf
    · simp only [hctx] at herr ⊢
      rcases hst : streamAt ctx.streams d.m_VStreamIndex with _ | st
      · simp only [hst] at herr
        simp at herr
        subst herr
        simp [Fault.isCrash] at hf
      · simp only [hst] at herr ⊢
        split at herr
        · rename_i d2 e hoc
          obtain ⟨rc, hrc⟩ := openCodec_returns _ _ _ _ _ _ hoc ctx st rfl hst
          simp at hrc
        · rename_i d2 rc hoc
          obtain ⟨p, l, n, hfr⟩ := openCodec_frame _ _ _ _ _ _ hoc
          dsimp only at hfr
          subst hfr
          dsimp only at herr ⊢
          by_cases hrc : rc = -1
          · simp [hrc]
          · simp [hrc, VideoDecoder.calcPixelFormat] at herr
  · simp [hv] at herr

/-- The audio stage never throws: a failure in it is a read through the null
pointer (or past the stream table). -/
theorem openAudioStream_thrown (w : World) (cfg : BuildConfig) (d : VideoDecoder)
    (fn : String) (f : Fault) (herr : (d.openAudioStream w cfg fn).2 = .error f) :
    f.isCrash = true := by
  unfold VideoDecoder.openAudioStream at herr
  by_cases ha : d.m_AStreamIndex ≥ 0
  · simp only [ha, if_true] at herr
    rcases hctx : d.m_pFormatContext with _ | ctx
    · simp only [hctx] at herr
      simp at herr
      subst herr
      rfl
    · simp only [hctx] at herr
      rcases hst : streamAt ctx.streams d.m_AStreamIndex with _ | st
      · simp only [hst] at herr
        simp at herr
        subst herr
        rfl
      · simp only [hst] at herr
        split at herr
        · rename_i d2 e hoc
          obtain ⟨rc, hrc⟩ := openCodec_returns _ _ _ _ _ _ hoc ctx st rfl hst
          simp at hrc
        · rename_i d2 rc hoc
          by_cases hrc : rc = -1
          · simp [hrc] at herr
            subst herr
            rfl
          · simp [hrc] at herr
  · simp [ha] at herr

/-- When `openCodec` returns `0` for the selected video stream, the video stage
succeeds and selects that stream. -/
theorem openVideoStream_of_codec_opened (w : World) (cfg : BuildConfig) (d : VideoDecoder)
    (fn : String) (hw : Bool) (ctx : AVFormatContext) (st : AVStream)
    (hctx : d.m_pFormatContext = some ctx) (h0 : 0 ≤ d.m_VStreamIndex)
    (hst : streamAt ctx.streams d.m_VStreamIndex = some st)
    (hrc : ∀ d0 : VideoDecoder, d0.m_pFormatContext = some ctx →
      (d0.openCodec w cfg d.m_VStreamIndex hw).2 = .ok 0) :
    (d.openVideoStream w cfg fn hw).2 = .ok () ∧
      (d.openVideoStream w cfg fn hw).1.m_pVStream = some st ∧
      (d.openVideoStream w cfg fn hw).1.m_VStreamIndex = d.m_VStreamIndex := by
  unfold VideoDecoder.openVideoStream
  simp only [ge_iff_le, h0, if_true, hctx, hst]
  split
  · rename_i d2 e hoc
    have hfc : ∀ (d0 : VideoDecoder) (oc : Outcome Int), d0.m_pFormatContext = some ctx →
        d0.openCodec w cfg d.m_VStreamIndex hw = oc → oc.2 = .ok 0 :=
      fun d0 oc hc h => h ▸ hrc d0 hc
    have := hfc _ _ rfl hoc
    simp at this
  · rename_i d2 rc hoc
    have hfc : ∀ (d0 : VideoDecoder) (oc : Outcome Int), d0.m_pFormatContext = some ctx →
        d0.openCodec w cfg d.m_VStreamIndex hw = oc → oc.2 = .ok 0 :=
      fun d0 oc hc h => h ▸ hrc d0 hc
    have hz := hfc _ _ rfl hoc
    simp at hz
    subst hz
    obtain ⟨p, l, n, hfr⟩ := openCodec_frame _ _ _ _ _ _ hoc
    dsimp only at hfr
    subst hfr
    simp [VideoDecoder.calcPixelFormat]

/-- When `openCodec` returns `-1` for the selected audio stream, the audio stage
clears `m_pAStream` and then reads the codec description through it: the stage
ends in a read through the null pointer. -/
theorem openAudioStream_of_codec_failed (w : World) (cfg : BuildConfig) (d : VideoDecoder)
    (fn : String) (ctx : AVFormatContext) (st : AVStream)
    (hctx : d.m_pFormatContext = some ctx) (h0 : 0 ≤ d.m_AStreamIndex)
    (hst : streamAt ctx.streams d.m_AStreamIndex = some st)
    (hrc : ∀ d0 : VideoDecoder, d0.m_pFormatContext = some ctx →
      (d0.openCodec w cfg d.m_AStreamIndex false).2 = .ok (-1)) :
    (d.openAudioStream w cfg fn).2 = .error .nullDeref := by
  unfold VideoDecoder.openAudioStream
  simp only [ge_iff_le, h0, if_true, hctx, hst]
  split
  · rename_i d2 e hoc
    have hfc : ∀ (d0 : VideoDecoder) (oc : Outcome Int), d0.m_pFormatContext = some ctx →
        d0.openCodec w cfg d.m_AStreamIndex false = oc → oc.2 = .ok (-1) :=
      fun d0 oc hc h => h ▸ hrc d0 hc
    have := hfc _ _ rfl hoc
    simp at this
  · rename_i d2 rc hoc
    have hfc : ∀ (d0 : VideoDecoder) (oc : Outcome Int), d0.m_pFormatContext = some ctx →
        d0.openCodec w cfg d.m_AStreamIndex false = oc → oc.2 = .ok (-1) :=
      fun d0 oc hc h => h ▸ hrc d0 hc
    have hz := hfc _ _ rfl hoc
    simp at hz
    subst hz
    simp

/-- The outcomes of the part of `open` after the scanning loop, on a decoder that
holds the container and whose indices lie in its stream table: either success in
state `OPENED` with a descriptor present, or a failure that leaves the state as it
was; a failure that throws leaves the video descriptor absent and the audio
descriptor absent or untouched.  The container handle is kept in every case, and
an absent video descriptor has index `-1`. -/
theorem openStreams_post (w : World) (cfg : BuildConfig) (d : VideoDecoder) (fn : String)
    (hw : Bool) (ctx : AVFormatContext) (o : Outcome Unit)
    (ho : d.openStreams w cfg fn hw = o)
    (hctx : d.m_pFormatContext = some ctx)
    (hv : d.m_VStreamIndex = -1 ∨
      (0 ≤ d.m_VStreamIndex ∧ ∃ st, streamAt ctx.streams d.m_VStreamIndex = some st))
    (ha : d.m_AStreamIndex = -1 ∨
      (0 ≤ d.m_AStreamIndex ∧ ∃ st, streamAt ctx.streams d.m_AStreamIndex = some st)) :
    (o.1.m_pVStream = none → o.1.m_VStreamIndex = -1) ∧
      o.1.m_pFormatContext = some ctx ∧
      ((o.2 = .ok () ∧ o.1.m_State = .OPENED ∧
          ¬ (o.1.m_pVStream = none ∧ o.1.m_pAStream = none)) ∨
        (∃ f, o.2 = .error f ∧ o.1.m_State = d.m_State ∧
          (f.isCrash = false → o.1.m_pVStream = none ∧
            (o.1.m_pAStream = none ∨ o.1.m_pAStream = d.m_pAStream)))) := by
  obtain ⟨pv1, pv2, pv3, pv4, pv5⟩ := openVideoStream_post w cfg d fn hw ctx hctx hv
  unfold VideoDecoder.openStreams at ho
  split at ho
  · rename_i d4 e hvs
    have hthrown := openVideoStream_thrown w cfg d fn hw e (by rw [hvs])
    rw [hvs] at pv1 pv3 pv4 pv5 hthrown
    dsimp only at pv1 pv3 pv4 pv5 hthrown
    subst ho
    refine ⟨pv1, pv4, Or.inr ⟨e, rfl, pv5, ?_⟩⟩
    intro hcrash
    exact ⟨hthrown hcrash, Or.inr pv3⟩
  · rename_i d4 u hvs
    rw [hvs] at pv1 pv2 pv3 pv4 pv5
    dsimp only at pv1 pv2 pv3 pv4 pv5
    obtain ⟨-, pa2, pa3, pa4, pa5⟩ := openAudioStream_post w cfg d4 fn ctx pv4
      (by rw [pv2]; exact ha)
    split at ho
    · rename_i d5 e has
      have hcr := openAudioStream_thrown w cfg d4 fn e (by rw [has])
      rw [has] at pa2 pa3 pa4 pa5
      dsimp only at pa2 pa3 pa4 pa5
      subst ho
      refine ⟨by dsimp only; rw [pa2, pa3]; exact pv1, pa4,
        Or.inr ⟨e, rfl, by dsimp only; rw [pa5, pv5], ?_⟩⟩
      intro hcrash
      rw [hcr] at hcrash
      exact absurd hcrash (by decide)
    · rename_i d5 u2 has
      rw [has] at pa2 pa3 pa4 pa5
      dsimp only at pa2 pa3 pa4 pa5
      split at ho
      · rename_i hboth
        subst ho
        refine ⟨by dsimp only; rw [pa2, pa3]; exact pv1, pa4,
          Or.inr ⟨_, rfl, by dsimp only; rw [pa5, pv5], ?_⟩⟩
        intro _
        exact ⟨hboth.1, Or.inl hboth.2⟩
      · rename_i hboth
        subst ho
        refine ⟨by dsimp only; rw [pa2, pa3]; exact pv1, pa4, Or.inl ⟨rfl, rfl, hboth⟩⟩

/-- The part of `open` after the scanning loop when the video codec opens and the
audio codec does not: the video stage returns, and the audio stage ends in the
read through the cleared `m_pAStream`. -/
theorem openStreams_audio_codec_failure (w : World) (cfg : BuildConfig) (d : VideoDecoder)
    (fn : String) (hw : Bool) (ctx : AVFormatContext) (sv sa : AVStream)
    (o : Outcome Unit) (ho : d.openStreams w cfg fn hw = o)
    (hctx : d.m_pFormatContext = some ctx)
    (hv0 : 0 ≤ d.m_VStreamIndex) (hsv : streamAt ctx.streams d.m_VStreamIndex = some sv)
    (ha0 : 0 ≤ d.m_AStreamIndex) (hsa : streamAt ctx.streams d.m_AStreamIndex = some sa)
    (hvid : ∀ d0 : VideoDecoder, d0.m_pFormatContext = some ctx →
      (d0.openCodec w cfg d.m_VStreamIndex hw).2 = .ok 0)
    (haud : ∀ d0 : VideoDecoder, d0.m_pFormatContext = some ctx →
      (d0.openCodec w cfg d.m_AStreamIndex false).2 = .ok (-1)) :
    o.2 = .error .nullDeref := by
  obtain ⟨-, pv2, -, pv4, -⟩ := openVideoStream_post w cfg d fn hw ctx hctx
    (Or.inr ⟨hv0, sv, hsv⟩)
  obtain ⟨v1, -, -⟩ := openVideoStream_of_codec_opened w cfg d fn hw ctx sv hctx hv0 hsv hvid
  unfold VideoDecoder.openStreams at ho
  split at ho
  · rename_i d4 e hvs
    rw [hvs] at v1
    simp at v1
  · rename_i d4 u hvs
    rw [hvs] at pv2 pv4
    dsimp only at pv2 pv4
    have ha0' : 0 ≤ d4.m_AStreamIndex := by rw [pv2]; exact ha0
    have hsa' : streamAt ctx.streams d4.m_AStreamIndex = some sa := by rw [pv2]; exact hsa
    have a1 := openAudioStream_of_codec_failed w cfg d4 fn ctx sa pv4 ha0'
      hsa' (by rw [pv2]; exact haud)
    split at ho
    · rename_i d5 e has
      rw [has] at a1
      subst ho
      exact a1
    · rename_i d5 u2 has
      rw [has] at a1
      simp at a1

/-- The outcomes of `open`: a probe failure leaves descriptors, indices and state
as they were; otherwise the outcome is that of the part after the scanning loop, on
the probed container: success in state `OPENED` with a descriptor present and the
container held, or a failure with the state as it was, where a failure that throws
leaves the video descriptor absent and the audio descriptor absent or untouched. -/
theorem open_post (w : World) (cfg : BuildConfig) (d : VideoDecoder) (fn : String)
    (hw snd : Bool) (o : Outcome Unit) (ho : d.open w cfg fn hw snd = o) :
    (∃ f, o.2 = .error f ∧ o.1.m_State = d.m_State ∧ o.1.m_pVStream = d.m_pVStream ∧
        o.1.m_pAStream = d.m_pAStream ∧ o.1.m_VStreamIndex = d.m_VStreamIndex ∧
        o.1.m_AStreamIndex = d.m_AStreamIndex) ∨
      ((o.1.m_pVStream = none → o.1.m_VStreamIndex = -1) ∧
        (∃ ctx, o.1.m_pFormatContext = some ctx) ∧
        ((o.2 = .ok () ∧ o.1.m_State = .OPENED ∧
            ¬ (o.1.m_pVStream = none ∧ o.1.m_pAStream = none)) ∨
          (∃ f, o.2 = .error f ∧ o.1.m_State = d.m_State ∧
            (f.isCrash = false → o.1.m_pVStream = none ∧
              (o.1.m_pAStream = none ∨ o.1.m_pAStream = d.m_pAStream))))) := by
  unfold VideoDecoder.open at ho
  dsimp only at ho
  split at ho
  · subst ho
    exact Or.inl ⟨_, rfl, rfl, rfl, rfl, rfl, rfl⟩
  · split at ho
    · subst ho
      exact Or.inl ⟨_, rfl, rfl, rfl, rfl, rfl, rfl⟩
    · rename_i ctx0 hctx0
      split at ho
      · subst ho
        exact Or.inl ⟨_, rfl, rfl, rfl, rfl, rfl, rfl⟩
      · split at ho
        · subst ho
          exact Or.inl ⟨_, rfl, rfl, rfl, rfl, rfl, rfl⟩
        · obtain ⟨fv, fa⟩ := findStreams_valid snd (w.avformat_find_stream_info ctx0).2.streams
          obtain ⟨q1, q2, q3⟩ := openStreams_post w cfg _ fn hw
            (w.avformat_find_stream_info ctx0).2 o ho rfl fv fa
          exact Or.inr ⟨q1, ⟨_, q2⟩, q3⟩

/-- What a successful `open` did: the library opened and probed the file, the
format is not `image2`, both stages succeeded on the indices the scanning loop
found, and the state is `OPENED`. -/
theorem open_ok_inv (w : World) (cfg : BuildConfig) (d d' : VideoDecoder) (fn : String)
    (hw snd : Bool) (h : d.open w cfg fn hw snd = (d', .ok ())) :
    ∃ ctx0, (w.avformat_open_input fn).2 = some ctx0 ∧
      d'.m_pFormatContext = some (w.avformat_find_stream_info ctx0).2 ∧
      d'.m_VStreamIndex =
        (findStreams snd (w.avformat_find_stream_info ctx0).2.streams 0 (-1, -1)).1 ∧
      d'.m_AStreamIndex =
        (findStreams snd (w.avformat_find_stream_info ctx0).2.streams 0 (-1, -1)).2 ∧
      d'.m_State = .OPENED ∧ d'.m_sFilename = fn := by
  unfold VideoDecoder.open VideoDecoder.openStreams at h
  dsimp only at h
  split at h
  · simp at h
  · split at h
    · simp at h
    · rename_i ctx0 hctx0
      split at h
      · simp at h
      · split at h
        · simp at h
        · split at h
          · simp at h
          · rename_i hv
            split at h
            · simp at h
            · rename_i ha
              split at h
              · simp at h
              · obtain ⟨v1, v2, -, v4, v5, v6, -, -⟩ := openVideoStream_ok _ _ _ _ _ _ hv
                obtain ⟨a1, a2, -, a4, a5, a6, -, -⟩ := openAudioStream_ok _ _ _ _ _ ha
                simp at h
                subst h
                refine ⟨ctx0, hctx0, ?_, ?_, ?_, rfl, ?_⟩
                · simp [a5, v5]
                · simp [a1, v1]
                · simp [a2, v2]
                · simp [a6, v6]

/-! ## Frame properties of `startDecoding` and `close` -/

/-- Whatever its outcome, `startDecoding` leaves the video descriptor, the video
index, the container handle and the filename as they were. -/
theorem startDecoding_video_frame (w : World) (cfg : BuildConfig) (d : VideoDecoder)
    (b : Bool) (pAP : Option AudioParams) :
    (d.startDecoding w cfg b pAP).1.m_pVStream = d.m_pVStream ∧
      (d.startDecoding w cfg b pAP).1.m_VStreamIndex = d.m_VStreamIndex ∧
      (d.startDecoding w cfg b pAP).1.m_pFormatContext = d.m_pFormatContext ∧
      (d.startDecoding w cfg b pAP).1.m_sFilename = d.m_sFilename := by
  unfold VideoDecoder.startDecoding VideoDecoder.calcPixelFormat
  by_cases hs : d.m_State = .OPENED <;> by_cases hvi : d.m_VStreamIndex ≥ 0 <;>
    rcases hv : d.m_pVStream with _ | v <;> rcases pAP with _ | ap <;>
    by_cases hai : d.m_AStreamIndex ≥ 0 <;> rcases ha : d.m_pAStream with _ | a <;>
    simp [hs, hvi, hv, hai, ha] <;>
    (try (by_cases hch : ap.m_Channels < a.codec.channels <;> simp [hch, hv, ha]))

/-- The state after `startDecoding`: unchanged when the call fails, `DECODING` when
it succeeds, and it succeeds only from `OPENED`. -/
theorem startDecoding_state (w : World) (cfg : BuildConfig) (d : VideoDecoder)
    (b : Bool) (pAP : Option AudioParams) :
    ((d.startDecoding w cfg b pAP).1.m_State = d.m_State ∧
        ∃ f, (d.startDecoding w cfg b pAP).2 = .error f) ∨
      ((d.startDecoding w cfg b pAP).1.m_State = .DECODING ∧ d.m_State = .OPENED ∧
        (d.startDecoding w cfg b pAP).2 = .ok ()) := by
  unfold VideoDecoder.startDecoding VideoDecoder.calcPixelFormat
  by_cases hs : d.m_State = .OPENED <;> by_cases hvi : d.m_VStreamIndex ≥ 0 <;>
    rcases hv : d.m_pVStream with _ | v <;> rcases pAP with _ | ap <;>
    by_cases hai : d.m_AStreamIndex ≥ 0 <;> rcases ha : d.m_pAStream with _ | a <;>
    simp [hs, hvi, hv, hai, ha] <;>
    (try (by_cases hch : ap.m_Channels < a.codec.channels <;> simp [hch, hv, ha, hs]))

/-- After `close` the state is `CLOSED`, both descriptors and the container handle
are absent, and a stream index is `-1` if its descriptor was present before the
call and otherwise what it was. -/
theorem close_post (d : VideoDecoder) :
    d.close.m_State = .CLOSED ∧ d.close.m_pVStream = none ∧ d.close.m_pAStream = none ∧
      d.close.m_pFormatContext = none ∧
      d.close.m_VStreamIndex = (if d.m_pVStream.isSome then -1 else d.m_VStreamIndex) ∧
      d.close.m_AStreamIndex = (if d.m_pAStream.isSome then -1 else d.m_AStreamIndex) := by
  unfold VideoDecoder.close
  cases hv : d.m_pVStream <;> cases ha : d.m_pAStream <;> cases hc : d.m_pFormatContext <;>
    simp [hv, ha, hc]

/-- On a decoder whose absent descriptors have index `-1` (a freshly constructed
decoder, and every decoder after a successful `open`), `close` ends in state
`CLOSED` with both descriptors absent, both indices `-1` and the container handle
absent. -/
theorem close_resets (d : VideoDecoder)
    (hV : d.m_pVStream = none → d.m_VStreamIndex = -1)
    (hA : d.m_pAStream = none → d.m_AStreamIndex = -1) :
    d.close.m_State = .CLOSED ∧ d.close.m_pVStream = none ∧ d.close.m_pAStream = none ∧
      d.close.m_VStreamIndex = -1 ∧ d.close.m_AStreamIndex = -1 ∧
      d.close.m_pFormatContext = none := by
  obtain ⟨h1, h2, h3, h4, h5, h6⟩ := close_post d
  refine ⟨h1, h2, h3, ?_, ?_, h4⟩
  · rw [h5]
    cases hv : d.m_pVStream
    · simpa using hV hv
    · simp
  · rw [h6]
    cases ha : d.m_pAStream
    · simpa using hA ha
    · simp

/-! ## Invariants of the reachable states -/

/-- The call `open` keeps the agreement of video descriptor and video index. -/
theorem open_videoConsistent (w : World) (cfg : BuildConfig) (d : VideoDecoder)
    (fn : String) (hw snd : Bool) (hV : VideoConsistent d) :
    VideoConsistent (d.open w cfg fn hw snd).1 := by
  unfold VideoConsistent at hV ⊢
  unfold VideoDecoder.open VideoDecoder.openStreams
  dsimp only
  split
  · exact hV
  · split
    · exact hV
    · rename_i ctx0 hctx0
      split
      · exact hV
      · split
        · exact hV
        · obtain ⟨fv, fa⟩ := findStreams_valid snd (w.avformat_find_stream_info ctx0).2.streams
          generalize hva : findStreams snd (w.avformat_find_stream_info ctx0).2.streams 0
            (-1, -1) = va at fv fa
          obtain ⟨pv1, pv2, -, pv4, -⟩ := openVideoStream_post w cfg
            { m_State := d.m_State
              m_pFormatContext := some (w.avformat_find_stream_info ctx0).2
              m_sFilename := fn
              m_VStreamIndex := va.1
              m_pVStream := d.m_pVStream
              m_PF := d.m_PF
              m_Size := d.m_Size
              m_pVDPAUDecoder := d.m_pVDPAUDecoder
              m_pVAAPIDecoder := d.m_pVAAPIDecoder
              m_AStreamIndex := va.2
              m_pAStream := d.m_pAStream
              liveAccel := d.liveAccel
              nextAccel := d.nextAccel } fn hw _ rfl fv
          split
          · rename_i d4 e hv
            rw [hv] at pv1
            exact pv1
          · rename_i d4 u hv
            rw [hv] at pv1 pv2 pv4
            dsimp only at pv1 pv2 pv4
            obtain ⟨-, pa2, pa3, -, -⟩ := openAudioStream_post w cfg d4 fn _ pv4
              (by rw [pv2]; exact fa)
            split
            · rename_i d5 e ha
              rw [ha] at pa2 pa3
              dsimp only at pa2 pa3
              rw [pa2, pa3]
              exact pv1
            · rename_i d5 u2 ha
              rw [ha] at pa2 pa3
              dsimp only at pa2 pa3
              split
              · rw [pa2, pa3]
                exact pv1
              · dsimp only
                rw [pa2, pa3]
                exact pv1

/-- The call `startDecoding` keeps the agreement of video descriptor and video index. -/
theorem startDecoding_videoConsistent (w : World) (cfg : BuildConfig) (d : VideoDecoder)
    (b : Bool) (pAP : Option AudioParams) (hV : VideoConsistent d) :
    VideoConsistent (d.startDecoding w cfg b pAP).1 := by
  unfold VideoConsistent at hV ⊢
  obtain ⟨h1, h2, -, -⟩ := startDecoding_video_frame w cfg d b pAP
  rw [h1, h2]
  exact hV

/-- The call `close` keeps the agreement of video descriptor and video index. -/
theorem close_videoConsistent (d : VideoDecoder) (hV : VideoConsistent d) :
    VideoConsistent d.close := by
  unfold VideoConsistent at hV ⊢
  intro _
  rw [(close_post d).2.2.2.2.1]
  cases hv : d.m_pVStream
  · simpa using hV hv
  · simp

/-- In every reachable state an absent video descriptor goes with video index `-1`. -/
theorem Reachable.videoConsistent {cfg : BuildConfig} {d : VideoDecoder}
    (h : Reachable cfg d) : VideoConsistent d := by
  induction h with
  | construct => intro _; rfl
  | «open» w d fn hw snd _ _ ih => exact open_videoConsistent w cfg d fn hw snd ih
  | startDecoding w d b pAP _ _ ih => exact startDecoding_videoConsistent w cfg d b pAP ih
  | close d _ ih => exact close_videoConsistent d ih

/-- After an `open` that returned or threw, a `CLOSED` decoder holds no descriptor
if that was so before. -/
theorem open_closedClean (w : World) (cfg : BuildConfig) (d : VideoDecoder) (fn : String)
    (hw snd : Bool) (hC : ClosedClean d)
    (hs : survived (d.open w cfg fn hw snd).2 = true) :
    ClosedClean (d.open w cfg fn hw snd).1 := by
  unfold ClosedClean at hC ⊢
  intro hclosed
  rcases open_post w cfg d fn hw snd _ rfl with
    ⟨f, -, h2, h3, h4, -, -⟩ | ⟨-, -, ⟨-, h2, -⟩ | ⟨f, h1, h2, h3⟩⟩
  · rw [h3, h4]
    exact hC (by rw [← h2]; exact hclosed)
  · rw [h2] at hclosed
    exact absurd hclosed (by decide)
  · have hcr : f.isCrash = false := by
      rw [h1] at hs
      simpa [survived] using hs
    obtain ⟨k1, k2⟩ := h3 hcr
    refine ⟨k1, ?_⟩
    rcases k2 with k2 | k2
    · exact k2
    · rw [k2]
      exact (hC (by rw [← h2]; exact hclosed)).2

/-- After `startDecoding`, a `CLOSED` decoder holds no descriptor if that was so
before. -/
theorem startDecoding_closedClean (w : World) (cfg : BuildConfig) (d : VideoDecoder)
    (b : Bool) (pAP : Option AudioParams) (hC : ClosedClean d) :
    ClosedClean (d.startDecoding w cfg b pAP).1 := by
  unfold ClosedClean at hC ⊢
  intro hclosed
  by_cases hs : d.m_State = .OPENED
  · rcases startDecoding_state w cfg d b pAP with ⟨h1, -⟩ | ⟨h1, -, -⟩
    · rw [h1, hs] at hclosed
      exact absurd hclosed (by decide)
    · rw [h1] at hclosed
      exact absurd hclosed (by decide)
  · have : d.startDecoding w cfg b pAP = (d, .error .assertFailed) := by
      simp [VideoDecoder.startDecoding, hs]
    rw [this] at hclosed ⊢
    exact hC hclosed

/-- In every reachable state a `CLOSED` decoder holds no stream descriptor. -/
theorem Reachable.closedClean {cfg : BuildConfig} {d : VideoDecoder}
    (h : Reachable cfg d) : ClosedClean d := by
  induction h with
  | construct => intro _; exact ⟨rfl, rfl⟩
  | «open» w d fn hw snd _ hs ih => exact open_closedClean w cfg d fn hw snd ih hs
  | startDecoding w d b pAP _ _ ih => exact startDecoding_closedClean w cfg d b pAP ih
  | close d _ _ => intro _; exact ⟨(close_post d).2.1, (close_post d).2.2.1⟩

/-! ## Opening: stream selection and failures (claims C1, C2, C3) -/

/-- Claim C1: whenever `open` succeeds, the video index is the smallest index of a
video stream in the probed stream table (`-1` if there is none); the audio index is
the smallest index of an audio stream (`-1` if there is none) when sound is
enabled, and `-1` when it is not.  A later stream of the same kind never replaces
the first one, since the index is the smallest. -/
theorem open_selects_first_streams (w : World) (cfg : BuildConfig) (d d' : VideoDecoder)
    (fn : String) (hw snd : Bool) (h : d.open w cfg fn hw snd = (d', .ok ())) :
    ∃ ctx0, (w.avformat_open_input fn).2 = some ctx0 ∧
      d'.m_pFormatContext = some (w.avformat_find_stream_info ctx0).2 ∧
      IsFirstOfType AVMEDIA_TYPE_VIDEO (w.avformat_find_stream_info ctx0).2.streams
        d'.m_VStreamIndex ∧
      (snd = true → IsFirstOfType AVMEDIA_TYPE_AUDIO
        (w.avformat_find_stream_info ctx0).2.streams d'.m_AStreamIndex) ∧
      (snd = false → d'.m_AStreamIndex = -1) := by
  obtain ⟨ctx0, h0, h1, h2, h3, -, -⟩ := open_ok_inv w cfg d d' fn hw snd h
  refine ⟨ctx0, h0, h1, ?_, ?_, ?_⟩
  · rw [h2, findStreams_fst]
    simpa using firstFrom_isFirst _ _
  · intro hs
    subst hs
    rw [h3, findStreams_snd_enabled]
    simpa using firstFrom_isFirst _ _
  · intro hs
    subst hs
    rw [h3, findStreams_snd_disabled]

/-- An instance: `open` with sound on the five-stream `demoMovie`. -/
theorem open_selects_first_streams_witness :
    ∃ ctx0, ((demoWorld 0 (some demoMovie) 0 0).avformat_open_input "movie.avi").2 = some ctx0 ∧
      (VideoDecoder.construct.open (demoWorld 0 (some demoMovie) 0 0) (demoBuild false false)
        "movie.avi" false true).1.m_pFormatContext =
        some ((demoWorld 0 (some demoMovie) 0 0).avformat_find_stream_info ctx0).2 ∧
      IsFirstOfType AVMEDIA_TYPE_VIDEO
        ((demoWorld 0 (some demoMovie) 0 0).avformat_find_stream_info ctx0).2.streams
        (VideoDecoder.construct.open (demoWorld 0 (some demoMovie) 0 0) (demoBuild false false)
          "movie.avi" false true).1.m_VStreamIndex ∧
      (true = true → IsFirstOfType AVMEDIA_TYPE_AUDIO
        ((demoWorld 0 (some demoMovie) 0 0).avformat_find_stream_info ctx0).2.streams
        (VideoDecoder.construct.open (demoWorld 0 (some demoMovie) 0 0) (demoBuild false false)
          "movie.avi" false true).1.m_AStreamIndex) ∧
      (true = false →
        (VideoDecoder.construct.open (demoWorld 0 (some demoMovie) 0 0) (demoBuild false false)
          "movie.avi" false true).1.m_AStreamIndex = -1) :=
  open_selects_first_streams (demoWorld 0 (some demoMovie) 0 0) (demoBuild false false)
    VideoDecoder.construct _ "movie.avi" false true (by rfl)

/-- Claim C2: on every reachable `CLOSED` decoder (a freshly constructed one, or one
after `close` or after a failed `open`), for a file that the library opens and
probes successfully (and that is not of format `image2`) and whose stream table
has neither a video nor an audio stream, `open` with any flags throws the "no
usable streams found" exception, and the state stays `CLOSED`: it does not reach
`OPENED`. -/
theorem open_no_streams_fails (w : World) (cfg : BuildConfig) (d : VideoDecoder)
    (fn : String) (hw snd : Bool) (err : Int) (ctx0 : AVFormatContext)
    (hr : Reachable cfg d) (hclosed : d.m_State = .CLOSED)
    (hopen : w.avformat_open_input fn = (err, some ctx0)) (herr : 0 ≤ err)
    (hinfo : 0 ≤ (w.avformat_find_stream_info ctx0).1)
    (hfmt : (w.avformat_find_stream_info ctx0).2.iformat_name ≠ "image2")
    (hnone : ∀ s ∈ (w.avformat_find_stream_info ctx0).2.streams,
      s.codec.codec_type ≠ AVMEDIA_TYPE_VIDEO ∧ s.codec.codec_type ≠ AVMEDIA_TYPE_AUDIO) :
    (d.open w cfg fn hw snd).2 =
        .error (.exception .AVG_ERR_VIDEO_INIT_FAILED (fn ++ ": no usable streams found.")) ∧
      (d.open w cfg fn hw snd).1.m_State = .CLOSED ∧
      (d.open w cfg fn hw snd).1.m_State ≠ .OPENED := by
  obtain ⟨hv, ha⟩ := hr.closedClean hclosed
  have h1 : ¬ err < 0 := by omega
  have h2 : ¬ (w.avformat_find_stream_info ctx0).1 < 0 := by omega
  simp [VideoDecoder.open, VideoDecoder.openStreams, hopen, h1, h2, hfmt,
    findStreams_none _ _ _ _ hnone, VideoDecoder.openVideoStream,
    VideoDecoder.openAudioStream, hv, ha, hclosed]

/-- An instance: a fresh decoder and a container with a single subtitle stream. -/
theorem open_no_streams_fails_witness :
    ((VideoDecoder.construct.open
        (demoLib (demoContainer "srt" [demoStream AVMEDIA_TYPE_SUBTITLE 7 0]))
        (demoBuild false false) "subs.srt" true true).2 =
        .error (.exception .AVG_ERR_VIDEO_INIT_FAILED ("subs.srt" ++ ": no usable streams found."))) ∧
      (VideoDecoder.construct.open
        (demoLib (demoContainer "srt" [demoStream AVMEDIA_TYPE_SUBTITLE 7 0]))
        (demoBuild false false) "subs.srt" true true).1.m_State = .CLOSED ∧
      (VideoDecoder.construct.open
        (demoLib (demoContainer "srt" [demoStream AVMEDIA_TYPE_SUBTITLE 7 0]))
        (demoBuild false false) "subs.srt" true true).1.m_State ≠ .OPENED :=
  open_no_streams_fails
    (demoLib (demoContainer "srt" [demoStream AVMEDIA_TYPE_SUBTITLE 7 0]))
    (demoBuild false false) VideoDecoder.construct "subs.srt" true true 0
    (demoContainer "srt" [demoStream AVMEDIA_TYPE_SUBTITLE 7 0])
    Reachable.construct rfl rfl (by decide) (by decide) (by decide) (by decide)

/-- The video-only case of claim C3 in general: when the only stream is a video
stream for which neither the accelerator backend (if tried) nor the library has a
decoder, `open` throws "unsupported video codec" with the description of that
stream's codec. -/
theorem open_video_only_no_decoder (w : World) (cfg : BuildConfig) (d : VideoDecoder)
    (fn : String) (hw snd : Bool) (err : Int) (ctx0 : AVFormatContext) (st : AVStream)
    (hopen : w.avformat_open_input fn = (err, some ctx0)) (herr : 0 ≤ err)
    (hinfo : 0 ≤ (w.avformat_find_stream_info ctx0).1)
    (hfmt : (w.avformat_find_stream_info ctx0).2.iformat_name ≠ "image2")
    (hstreams : (w.avformat_find_stream_info ctx0).2.streams = [st])
    (hty : st.codec.codec_type = AVMEDIA_TYPE_VIDEO)
    (hacc : w.vaapiOpenCodec st.codec = none)
    (hdec : w.avcodec_find_decoder st.codec.codec_id = none) :
    (d.open w cfg fn hw snd).2 =
      .error (.exception .AVG_ERR_VIDEO_INIT_FAILED
        (fn ++ ": unsupported video codec (" ++ w.avcodec_string st.codec ++ ").")) := by
  have h1 : ¬ err < 0 := by omega
  have h2 : ¬ (w.avformat_find_stream_info ctx0).1 < 0 := by omega
  by_cases hv : cfg.AVG_ENABLE_VAAPI = true ∧ hw = true <;>
    simp [VideoDecoder.open, VideoDecoder.openStreams, hopen, h1, h2, hfmt, hstreams,
      findStreams, hty, VideoDecoder.openVideoStream, VideoDecoder.openCodec, streamAt,
      hacc, hdec, hv]

/-- The audio-only case of claim C3 in general: when the only stream is an audio
stream without a decoder and sound is enabled, `open` ends in the read through
the cleared `m_pAStream`. -/
theorem open_audio_only_no_decoder (w : World) (cfg : BuildConfig) (d : VideoDecoder)
    (fn : String) (hw : Bool) (err : Int) (ctx0 : AVFormatContext) (st : AVStream)
    (hopen : w.avformat_open_input fn = (err, some ctx0)) (herr : 0 ≤ err)
    (hinfo : 0 ≤ (w.avformat_find_stream_info ctx0).1)
    (hfmt : (w.avformat_find_stream_info ctx0).2.iformat_name ≠ "image2")
    (hstreams : (w.avformat_find_stream_info ctx0).2.streams = [st])
    (hty : st.codec.codec_type = AVMEDIA_TYPE_AUDIO)
    (hdec : w.avcodec_find_decoder st.codec.codec_id = none) :
    (d.open w cfg fn hw true).2 = .error .nullDeref := by
  have h1 : ¬ err < 0 := by omega
  have h2 : ¬ (w.avformat_find_stream_info ctx0).1 < 0 := by omega
  simp [VideoDecoder.open, VideoDecoder.openStreams, hopen, h1, h2, hfmt, hstreams,
    findStreams, hty, VideoDecoder.openVideoStream, VideoDecoder.openAudioStream,
    VideoDecoder.openCodec, streamAt, hdec]

/-- Claim C3 (evaluation at the failing input): for a container whose only stream
is an audio stream without a decoder, `open` with sound enabled clears
`m_pAStream` and then reads the codec description through it, a read through the
null pointer, so no exception naming the codec is produced; for the same codec in
a video-only container the sibling path reads the description before clearing the
pointer and throws the exception that names the codec. -/
theorem open_unsupported_audio_reads_null :
    (VideoDecoder.construct.open (demoLib demoBadAudio) (demoBuild false false)
        "a.wav" false true).2 = .error .nullDeref ∧
      (VideoDecoder.construct.open (demoLib demoBadVideo) (demoBuild false false)
        "v.avi" false true).2 =
        .error (.exception .AVG_ERR_VIDEO_INIT_FAILED
          "v.avi: unsupported video codec (codec 200).") := by
  constructor <;> rfl

/-! ## Starting to decode and closing (claims C4, C5, C6) -/

/-- Claim C4, refuted as stated: on the opened `demoMovie` (a video stream and a
six-channel audio stream) `startDecoding` with a channel limit of two does raise
an error; afterwards the state is not `DECODING`, the audio descriptor is still
present and the audio index is not `-1`. -/
theorem startDecoding_channel_limit_counterexample :
    demoOpened.m_State = .OPENED ∧ demoOpened.m_pVStream ≠ none ∧
      demoOpened.m_pAStream = some (demoStream AVMEDIA_TYPE_AUDIO 2 6) ∧
      (demoOpened.startDecoding (demoLib demoMovie) (demoBuild false false) true
        (some ⟨2⟩)).2 = .error (.exception .AVG_ERR_VIDEO_INIT_FAILED
          "movie.avi: unsupported number of audio channels (6).") ∧
      (demoOpened.startDecoding (demoLib demoMovie) (demoBuild false false) true
        (some ⟨2⟩)).1.m_State ≠ .DECODING ∧
      (demoOpened.startDecoding (demoLib demoMovie) (demoBuild false false) true
        (some ⟨2⟩)).1.m_pAStream ≠ none ∧
      (demoOpened.startDecoding (demoLib demoMovie) (demoBuild false false) true
        (some ⟨2⟩)).1.m_AStreamIndex ≠ -1 :=
  ⟨by decide, by decide, by decide, rfl, by decide, by decide, by decide⟩

/-- Claim C4, amended: on an `OPENED` decoder with a video stream and a selected
audio stream whose channel count exceeds the caller's, `startDecoding` throws the
"unsupported number of audio channels" exception naming that channel count; the
state stays `OPENED` and the video descriptor and video index are unchanged. -/
theorem startDecoding_channel_limit_throws (w : World) (cfg : BuildConfig)
    (d : VideoDecoder) (bDeliverYCbCr : Bool) (ap : AudioParams) (v a : AVStream)
    (hs : d.m_State = .OPENED) (hv : d.m_pVStream = some v) (ha : d.m_pAStream = some a)
    (hai : 0 ≤ d.m_AStreamIndex) (hch : a.codec.channels > ap.m_Channels) :
    (d.startDecoding w cfg bDeliverYCbCr (some ap)).2 =
        .error (.exception .AVG_ERR_VIDEO_INIT_FAILED
          (d.m_sFilename ++ ": unsupported number of audio channels (" ++
            toString a.codec.channels ++ ").")) ∧
      (d.startDecoding w cfg bDeliverYCbCr (some ap)).1.m_State = .OPENED ∧
      (d.startDecoding w cfg bDeliverYCbCr (some ap)).1.m_pVStream = some v ∧
      (d.startDecoding w cfg bDeliverYCbCr (some ap)).1.m_VStreamIndex = d.m_VStreamIndex := by
  unfold VideoDecoder.startDecoding
  by_cases hvi : d.m_VStreamIndex ≥ 0 <;>
    simp [hs, hv, ha, hai, hch, hvi, VideoDecoder.calcPixelFormat]

/-- An instance: the opened `demoMovie` (six audio channels) against a limit of two. -/
theorem startDecoding_channel_limit_throws_witness :
    (demoOpened.startDecoding (demoLib demoMovie) (demoBuild false false) true (some ⟨2⟩)).2 =
        .error (.exception .AVG_ERR_VIDEO_INIT_FAILED
          (demoOpened.m_sFilename ++ ": unsupported number of audio channels (" ++
            toString (demoStream AVMEDIA_TYPE_AUDIO 2 6).codec.channels ++ ").")) ∧
      (demoOpened.startDecoding (demoLib demoMovie) (demoBuild false false) true
        (some ⟨2⟩)).1.m_State = .OPENED ∧
      (demoOpened.startDecoding (demoLib demoMovie) (demoBuild false false) true
        (some ⟨2⟩)).1.m_pVStream = some (demoStream AVMEDIA_TYPE_VIDEO 1 0) ∧
      (demoOpened.startDecoding (demoLib demoMovie) (demoBuild false false) true
        (some ⟨2⟩)).1.m_VStreamIndex = demoOpened.m_VStreamIndex :=
  startDecoding_channel_limit_throws (demoLib demoMovie) (demoBuild false false) demoOpened
    true ⟨2⟩ (demoStream AVMEDIA_TYPE_VIDEO 1 0) (demoStream AVMEDIA_TYPE_AUDIO 2 6)
    (by decide) (by decide) (by decide) (by decide) (by decide)

/-- Claim C5: on every reachable `OPENED` decoder, `startDecoding` with absent audio
parameters throws the "no usable streams found" exception exactly when no video
stream is selected; when one is selected the call succeeds, the state is
`DECODING`, the audio descriptor is absent, the audio index is `-1`, and the video
descriptor and video index are unchanged. -/
theorem startDecoding_without_audio (w : World) (cfg : BuildConfig) (d : VideoDecoder)
    (bDeliverYCbCr : Bool) (hr : Reachable cfg d) (hs : d.m_State = .OPENED) :
    ((d.startDecoding w cfg bDeliverYCbCr none).2 =
        .error (.exception .AVG_ERR_VIDEO_INIT_FAILED
          (d.m_sFilename ++ ": no usable streams found.")) ↔ d.m_pVStream = none) ∧
    (d.m_pVStream ≠ none →
      (d.startDecoding w cfg bDeliverYCbCr none).2 = .ok () ∧
      (d.startDecoding w cfg bDeliverYCbCr none).1.m_State = .DECODING ∧
      (d.startDecoding w cfg bDeliverYCbCr none).1.m_pAStream = none ∧
      (d.startDecoding w cfg bDeliverYCbCr none).1.m_AStreamIndex = -1 ∧
      (d.startDecoding w cfg bDeliverYCbCr none).1.m_pVStream = d.m_pVStream ∧
      (d.startDecoding w cfg bDeliverYCbCr none).1.m_VStreamIndex = d.m_VStreamIndex) := by
  have hV := hr.videoConsistent
  unfold VideoConsistent at hV
  unfold VideoDecoder.startDecoding VideoDecoder.calcPixelFormat
  rcases hv : d.m_pVStream with _ | v
  · have hidx : ¬ d.m_VStreamIndex ≥ 0 := by rw [hV hv]; decide
    simp [hs, hv, hidx]
  · by_cases hidx : d.m_VStreamIndex ≥ 0 <;> simp [hs, hv, hidx]

/-- An instance: the opened `demoMovie`, reached by one `open` from the constructor. -/
theorem startDecoding_without_audio_witness :
    ((demoOpened.startDecoding (demoLib demoMovie) (demoBuild false false) true none).2 =
        .error (.exception .AVG_ERR_VIDEO_INIT_FAILED
          (demoOpened.m_sFilename ++ ": no usable streams found.")) ↔
        demoOpened.m_pVStream = none) ∧
    (demoOpened.m_pVStream ≠ none →
      (demoOpened.startDecoding (demoLib demoMovie) (demoBuild false false) true none).2 =
        .ok () ∧
      (demoOpened.startDecoding (demoLib demoMovie) (demoBuild false false) true
        none).1.m_State = .DECODING ∧
      (demoOpened.startDecoding (demoLib demoMovie) (demoBuild false false) true
        none).1.m_pAStream = none ∧
      (demoOpened.startDecoding (demoLib demoMovie) (demoBuild false false) true
        none).1.m_AStreamIndex = -1 ∧
      (demoOpened.startDecoding (demoLib demoMovie) (demoBuild false false) true
        none).1.m_pVStream = demoOpened.m_pVStream ∧
      (demoOpened.startDecoding (demoLib demoMovie) (demoBuild false false) true
        none).1.m_VStreamIndex = demoOpened.m_VStreamIndex) :=
  startDecoding_without_audio (demoLib demoMovie) (demoBuild false false) demoOpened true
    (Reachable.open (demoLib demoMovie) VideoDecoder.construct "movie.avi" false true
      Reachable.construct rfl)
    (by decide)

/-- Claim C6 (evaluation at the failing input): `open` on a container with a video
stream that has no decoder and an audio stream, sound enabled, throws "unsupported
video codec" after the scanning loop has set the audio index to `1` and before an
audio descriptor is assigned, which leaves a reachable decoder state; `close`
resets an index only under a present descriptor, so after `close` the state is
`CLOSED` and the audio descriptor is absent, but the audio index is still `1`,
not `-1`. -/
theorem close_keeps_stale_audio_index :
    Reachable (demoBuild false false)
        (VideoDecoder.construct.open (demoLib demoBadVideoWithAudio) (demoBuild false false)
          "clip.avi" false true).1 ∧
      (VideoDecoder.construct.open (demoLib demoBadVideoWithAudio) (demoBuild false false)
        "clip.avi" false true).2 =
        .error (.exception .AVG_ERR_VIDEO_INIT_FAILED
          "clip.avi: unsupported video codec (codec 200).") ∧
      (VideoDecoder.construct.open (demoLib demoBadVideoWithAudio) (demoBuild false false)
        "clip.avi" false true).1.m_pAStream = none ∧
      (VideoDecoder.construct.open (demoLib demoBadVideoWithAudio) (demoBuild false false)
        "clip.avi" false true).1.m_AStreamIndex = 1 ∧
      (VideoDecoder.construct.open (demoLib demoBadVideoWithAudio) (demoBuild false false)
        "clip.avi" false true).1.close.m_State = .CLOSED ∧
      (VideoDecoder.construct.open (demoLib demoBadVideoWithAudio) (demoBuild false false)
        "clip.avi" false true).1.close.m_pAStream = none ∧
      (VideoDecoder.construct.open (demoLib demoBadVideoWithAudio) (demoBuild false false)
        "clip.avi" false true).1.close.m_AStreamIndex = 1 :=
  ⟨Reachable.open (demoLib demoBadVideoWithAudio) VideoDecoder.construct "clip.avi" false
      true Reachable.construct rfl,
    rfl, by decide, by decide, by decide, by decide, by decide⟩

/-! ## Probe failures of `open` (claim C7) -/

/-- Claim C7: on a closed decoder (in particular a freshly constructed one) `open`
throws an `AVG_ERR_VIDEO_INIT_FAILED` exception when the library cannot open the
file (the exception of `avcodecError`), when it cannot find the stream information
("Could not find codec parameters."), and when the detected format is `image2`
("Image files not supported as videos."); each time the state is `CLOSED`, the
container handle is absent and the stored filename is empty. -/
theorem open_probe_failure (w : World) (cfg : BuildConfig) (d : VideoDecoder) (fn : String)
    (hw snd : Bool) (hclosed : d.m_State = .CLOSED) :
    (∀ err p, w.avformat_open_input fn = (err, p) → err < 0 →
      (d.open w cfg fn hw snd).2 = .error (avcodecError w cfg fn err) ∧
      (∃ msg, avcodecError w cfg fn err = .exception .AVG_ERR_VIDEO_INIT_FAILED msg) ∧
      (d.open w cfg fn hw snd).1.m_State = .CLOSED ∧
      (d.open w cfg fn hw snd).1.m_pFormatContext = none ∧
      (d.open w cfg fn hw snd).1.m_sFilename = "") ∧
    (∀ err ctx0, w.avformat_open_input fn = (err, some ctx0) → 0 ≤ err →
      (w.avformat_find_stream_info ctx0).1 < 0 →
      (d.open w cfg fn hw snd).2 = .error (.exception .AVG_ERR_VIDEO_INIT_FAILED
        (fn ++ ": Could not find codec parameters.")) ∧
      (d.open w cfg fn hw snd).1.m_State = .CLOSED ∧
      (d.open w cfg fn hw snd).1.m_pFormatContext = none ∧
      (d.open w cfg fn hw snd).1.m_sFilename = "") ∧
    (∀ err ctx0, w.avformat_open_input fn = (err, some ctx0) → 0 ≤ err →
      0 ≤ (w.avformat_find_stream_info ctx0).1 →
      (w.avformat_find_stream_info ctx0).2.iformat_name = "image2" →
      (d.open w cfg fn hw snd).2 = .error (.exception .AVG_ERR_VIDEO_INIT_FAILED
        (fn ++ ": Image files not supported as videos.")) ∧
      (d.open w cfg fn hw snd).1.m_State = .CLOSED ∧
      (d.open w cfg fn hw snd).1.m_pFormatContext = none ∧
      (d.open w cfg fn hw snd).1.m_sFilename = "") := by
  refine ⟨?_, ?_, ?_⟩
  · intro err p hopen herr
    refine ⟨?_, ?_, ?_, ?_, ?_⟩
    · simp [VideoDecoder.open, hopen, herr]
    · unfold avcodecError
      split
      · exact ⟨_, rfl⟩
      · split
        · exact ⟨_, rfl⟩
        · split <;> exact ⟨_, rfl⟩
    · simp [VideoDecoder.open, hopen, herr, hclosed]
    · simp [VideoDecoder.open, hopen, herr]
    · simp [VideoDecoder.open, hopen, herr]
  · intro err ctx0 hopen herr hinfo
    have h1 : ¬ err < 0 := by omega
    simp [VideoDecoder.open, hopen, h1, hinfo, hclosed]
  · intro err ctx0 hopen herr hinfo hfmt
    have h1 : ¬ err < 0 := by omega
    have h2 : ¬ (w.avformat_find_stream_info ctx0).1 < 0 := by omega
    simp [VideoDecoder.open, hopen, h1, h2, hfmt, hclosed]

/-- Three instances on a fresh decoder: a file that does not open, a file without
stream information, and a file of format `image2`. -/
theorem open_probe_failure_witness :
    ((VideoDecoder.construct.open (demoWorld (-2) none 0 0) (demoBuild false false)
        "missing.avi" false true).2 =
        .error (avcodecError (demoWorld (-2) none 0 0) (demoBuild false false)
          "missing.avi" (-2)) ∧
      (VideoDecoder.construct.open (demoWorld (-2) none 0 0) (demoBuild false false)
        "missing.avi" false true).1.m_pFormatContext = none) ∧
    ((VideoDecoder.construct.open (demoWorld 0 (some demoMovie) (-1) 0) (demoBuild false false)
        "broken.avi" false true).2 =
        .error (.exception .AVG_ERR_VIDEO_INIT_FAILED
          ("broken.avi" ++ ": Could not find codec parameters.")) ∧
      (VideoDecoder.construct.open (demoWorld 0 (some demoMovie) (-1) 0) (demoBuild false false)
        "broken.avi" false true).1.m_State = .CLOSED) ∧
    ((VideoDecoder.construct.open (demoLib (demoContainer "image2" [])) (demoBuild false false)
        "picture.png" false true).2 =
        .error (.exception .AVG_ERR_VIDEO_INIT_FAILED
          ("picture.png" ++ ": Image files not supported as videos.")) ∧
      (VideoDecoder.construct.open (demoLib (demoContainer "image2" [])) (demoBuild false false)
        "picture.png" false true).1.m_sFilename = "") :=
  ⟨⟨((open_probe_failure (demoWorld (-2) none 0 0) (demoBuild false false)
        VideoDecoder.construct "missing.avi" false true rfl).1 (-2) none rfl (by decide)).1,
    ((open_probe_failure (demoWorld (-2) none 0 0) (demoBuild false false)
        VideoDecoder.construct "missing.avi" false true rfl).1 (-2) none rfl
        (by decide)).2.2.2.1⟩,
   ⟨((open_probe_failure (demoWorld 0 (some demoMovie) (-1) 0) (demoBuild false false)
        VideoDecoder.construct "broken.avi" false true rfl).2.1 0 demoMovie rfl (by decide)
        (by decide)).1,
    ((open_probe_failure (demoWorld 0 (some demoMovie) (-1) 0) (demoBuild false false)
        VideoDecoder.construct "broken.avi" false true rfl).2.1 0 demoMovie rfl (by decide)
        (by decide)).2.1⟩,
   ⟨((open_probe_failure (demoLib (demoContainer "image2" [])) (demoBuild false false)
        VideoDecoder.construct "picture.png" false true rfl).2.2 0 (demoContainer "image2" [])
        rfl (by decide) (by decide) (by decide)).1,
    ((open_probe_failure (demoLib (demoContainer "image2" [])) (demoBuild false false)
        VideoDecoder.construct "picture.png" false true rfl).2.2 0 (demoContainer "image2" [])
        rfl (by decide) (by decide) (by decide)).2.2.2⟩⟩

/-! ## The pixel-format resolver (claims C8, C9) -/

/-- Claim C8, refuted as stated: in a build with the VDPAU backend the source format
`VDPAU_H264` with YCbCr preferred resolves to `YCbCr420p`, where the reference
definition gives the default RGB format; in a build with the VAAPI backend
`VAAPI_VLD` resolves to `R8G8B8X8`, where the reference definition gives the
default RGB format of the platform (here `B8G8R8X8`). -/
theorem calcPixelFormat_reference_counterexample :
    calcPixelFormatOf (demoLib demoMovie) (demoBuild true false) .PIX_FMT_VDPAU_H264 true ≠
        calcPixelFormatReference (demoLib demoMovie) .PIX_FMT_VDPAU_H264 true ∧
      calcPixelFormatOf (demoLib demoMovie) (demoBuild false true) .PIX_FMT_VAAPI_VLD true ≠
        calcPixelFormatReference (demoLib demoMovie) .PIX_FMT_VAAPI_VLD true := by
  decide

/-- Claim C8, amended: with YCbCr preferred, a VDPAU format in a build with the VDPAU
backend resolves to `YCbCr420p` and `VAAPI_VLD` in a build with the VAAPI backend
resolves to `R8G8B8X8`; in every other case (every format in a build without
backends included) the resolver equals the reference definition.  The alpha 4:2:0
source with YCbCr preferred resolves to a format different from that of the
non-alpha 4:2:0 source. -/
theorem calcPixelFormat_eq_reference (w : World) (cfg : BuildConfig) (f : AVPixelFormat)
    (preferYCbCr : Bool) :
    calcPixelFormatOf w cfg f preferYCbCr =
        (if preferYCbCr = true ∧ cfg.AVG_ENABLE_VDPAU = true ∧ isVDPAUFormat f = true then
          .YCbCr420p
        else if preferYCbCr = true ∧ cfg.AVG_ENABLE_VAAPI = true ∧ f = .PIX_FMT_VAAPI_VLD then
          .R8G8B8X8
        else calcPixelFormatReference w f preferYCbCr) ∧
      calcPixelFormatOf w cfg .PIX_FMT_YUVA420P true ≠
        calcPixelFormatOf w cfg .PIX_FMT_YUV420P true := by
  constructor
  · cases preferYCbCr <;> cases hvd : cfg.AVG_ENABLE_VDPAU <;> cases hva : cfg.AVG_ENABLE_VAAPI <;>
      cases f <;>
      simp [calcPixelFormatOf, calcPixelFormatReference, isVDPAUFormat, hvd, hva]
  · simp [calcPixelFormatOf]

/-- Claim C9, refuted as stated: in a build with the VAAPI backend the resolver with
YCbCr preferred maps `VAAPI_VLD` to `R8G8B8X8`, not to the planar `YCbCr420p` it
returns for the plain planar 4:2:0 source. -/
theorem calcPixelFormat_vaapi_counterexample :
    calcPixelFormatOf (demoLib demoMovie) (demoBuild false true) .PIX_FMT_VAAPI_VLD true =
        .R8G8B8X8 ∧
      calcPixelFormatOf (demoLib demoMovie) (demoBuild false true) .PIX_FMT_YUV420P true =
        .YCbCr420p ∧
      calcPixelFormatOf (demoLib demoMovie) (demoBuild false true) .PIX_FMT_VAAPI_VLD true ≠
        calcPixelFormatOf (demoLib demoMovie) (demoBuild false true) .PIX_FMT_YUV420P true := by
  decide

/-- Claim C9, amended: in a build with the VDPAU backend every VDPAU format, with
YCbCr preferred, resolves to the planar `YCbCr420p`, the result for the plain
planar 4:2:0 source; in a build with the VAAPI backend `VAAPI_VLD`, with YCbCr
preferred, resolves to the packed `R8G8B8X8`. -/
theorem calcPixelFormat_hwaccel (w : World) (cfg : BuildConfig) :
    (cfg.AVG_ENABLE_VDPAU = true → ∀ f, isVDPAUFormat f = true →
      calcPixelFormatOf w cfg f true = .YCbCr420p ∧
      calcPixelFormatOf w cfg f true = calcPixelFormatOf w cfg .PIX_FMT_YUV420P true) ∧
    (cfg.AVG_ENABLE_VAAPI = true →
      calcPixelFormatOf w cfg .PIX_FMT_VAAPI_VLD true = .R8G8B8X8) := by
  constructor
  · intro hvd f hf
    cases f <;> simp [isVDPAUFormat] at hf <;> simp [calcPixelFormatOf, hvd]
  · intro hva
    simp [calcPixelFormatOf, hva]

/-- An instance: a build with both backends, `VDPAU_MPEG2` and `VAAPI_VLD`. -/
theorem calcPixelFormat_hwaccel_witness :
    (calcPixelFormatOf (demoLib demoMovie) (demoBuild true true) .PIX_FMT_VDPAU_MPEG2 true =
        .YCbCr420p ∧
      calcPixelFormatOf (demoLib demoMovie) (demoBuild true true) .PIX_FMT_VDPAU_MPEG2 true =
        calcPixelFormatOf (demoLib demoMovie) (demoBuild true true) .PIX_FMT_YUV420P true) ∧
      calcPixelFormatOf (demoLib demoMovie) (demoBuild true true) .PIX_FMT_VAAPI_VLD true =
        .R8G8B8X8 :=
  ⟨(calcPixelFormat_hwaccel (demoLib demoMovie) (demoBuild true true)).1 rfl
      .PIX_FMT_VDPAU_MPEG2 rfl,
   (calcPixelFormat_hwaccel (demoLib demoMovie) (demoBuild true true)).2 rfl⟩

/-! ## The stream clock (claims C10, C11, C12) -/

/-- Claim C10: on a decoder that is not `CLOSED`, when the selector (video, audio,
or default: the video stream if one is selected, otherwise the audio stream)
resolves to a selected stream whose raw duration is `AV_NOPTS_VALUE`,
`getDuration` returns the conversion of the integer `0`, whatever the stream's
time base, and no error. -/
theorem getDuration_unknown_is_zero (fl : FloatOps) (d : VideoDecoder) (sel : StreamSelect)
    (st : AVStream) (hstate : d.m_State ≠ .CLOSED)
    (hsel : (sel = SS_VIDEO ∧ d.m_pVStream = some st) ∨
      (sel = SS_AUDIO ∧ d.m_pAStream = some st) ∨
      (sel = SS_DEFAULT ∧ d.m_pVStream = some st) ∨
      (sel = SS_DEFAULT ∧ d.m_pVStream = none ∧ d.m_pAStream = some st))
    (hdur : st.duration = AV_NOPTS_VALUE) :
    d.getDuration fl sel = .ok (fl.ofInt 0) := by
  unfold VideoDecoder.getDuration
  rcases hsel with ⟨rfl, h⟩ | ⟨rfl, h⟩ | ⟨rfl, h⟩ | ⟨rfl, h1, h2⟩ <;>
    simp [hstate, *]

/-- An instance: the default selector on an opened video stream of unknown duration
whose time base has denominator zero. -/
theorem getDuration_unknown_is_zero_witness :
    demoUnknownDuration.getDuration demoFloat SS_DEFAULT = .ok (demoFloat.ofInt 0) :=
  getDuration_unknown_is_zero demoFloat demoUnknownDuration SS_DEFAULT demoUnknownStream
    (by decide) (Or.inr (Or.inr (Or.inl ⟨rfl, by decide⟩))) rfl

/-- Inside the range of `int` the conversion keeps the value. -/
theorem toInt32_of_inRange (x : Int) (h1 : -(2 ^ 31) ≤ x) (h2 : x < 2 ^ 31) :
    toInt32 x = x := by
  unfold toInt32
  omega

/-- Claim C11, refuted as stated: a positive frame count of `2 ^ 32 + 5` is reported
as `5`, and a negative frame count of `5 - 2 ^ 32` is also reported as `5`, where
the product of duration (`1000` ticks of `1/25` s) and frame rate (`25`) is
`1000`. -/
theorem getNumFrames_counterexample :
    (demoCounted (2 ^ 32 + 5)).m_State = .OPENED ∧
      (demoCounted (2 ^ 32 + 5)).m_pVStream =
        some { demoStream AVMEDIA_TYPE_VIDEO 1 0 with nb_frames := 2 ^ 32 + 5 } ∧
      (demoCounted (2 ^ 32 + 5)).getNumFrames demoFloat = .ok 5 ∧
      (demoCounted (5 - 2 ^ 32)).m_pVStream =
        some { demoStream AVMEDIA_TYPE_VIDEO 1 0 with nb_frames := 5 - 2 ^ 32 } ∧
      (demoCounted (5 - 2 ^ 32)).getNumFrames demoFloat = .ok 5 ∧
      (demoCounted (5 - 2 ^ 32)).getDuration demoFloat SS_VIDEO =
        .ok (demoFloat.mul (demoFloat.ofInt 1000) (demoFloat.q2d ⟨1, 25⟩)) ∧
      (demoCounted (5 - 2 ^ 32)).getStreamFPS demoFloat = .ok (demoFloat.q2d ⟨25, 1⟩) ∧
      demoFloat.toInt (demoFloat.mul (demoFloat.mul (demoFloat.ofInt 1000)
        (demoFloat.q2d ⟨1, 25⟩)) (demoFloat.q2d ⟨25, 1⟩)) = 1000 :=
  ⟨by decide, by decide, rfl, by decide, rfl, rfl, rfl, by simp [demoFloat]⟩

/-- Claim C11, amended: on a decoder that is not `CLOSED` and has a video stream with
frame count `n`, let `c` be `n` converted to `int`.  If `c` is positive
`getNumFrames` returns `c`, which is `n` when `0 < n < 2 ^ 31`; if `c` is zero or
negative, as it is when `-2 ^ 31 ≤ n ≤ 0`, `getNumFrames` returns the conversion
to `int` of the product of the video duration and the stream frame rate. -/
theorem getNumFrames_spec (fl : FloatOps) (d : VideoDecoder) (st : AVStream)
    (hstate : d.m_State ≠ .CLOSED) (hv : d.m_pVStream = some st) :
    (0 < toInt32 st.nb_frames → d.getNumFrames fl = .ok (toInt32 st.nb_frames)) ∧
    (0 < st.nb_frames → st.nb_frames < 2 ^ 31 → d.getNumFrames fl = .ok st.nb_frames) ∧
    (toInt32 st.nb_frames ≤ 0 →
      ∃ dur fps, d.getDuration fl SS_VIDEO = .ok dur ∧ d.getStreamFPS fl = .ok fps ∧
        d.getNumFrames fl = .ok (fl.toInt (fl.mul dur fps))) ∧
    (-(2 ^ 31) ≤ st.nb_frames → st.nb_frames ≤ 0 →
      ∃ dur fps, d.getDuration fl SS_VIDEO = .ok dur ∧ d.getStreamFPS fl = .ok fps ∧
        d.getNumFrames fl = .ok (fl.toInt (fl.mul dur fps))) := by
  have hpos : 0 < toInt32 st.nb_frames → d.getNumFrames fl = .ok (toInt32 st.nb_frames) := by
    intro h
    simp [VideoDecoder.getNumFrames, hstate, hv, h]
  have hneg : toInt32 st.nb_frames ≤ 0 →
      ∃ dur fps, d.getDuration fl SS_VIDEO = .ok dur ∧ d.getStreamFPS fl = .ok fps ∧
        d.getNumFrames fl = .ok (fl.toInt (fl.mul dur fps)) := by
    intro h
    have h' : ¬ toInt32 st.nb_frames > 0 := by omega
    by_cases hd : st.duration = AV_NOPTS_VALUE
    · exact ⟨fl.ofInt 0, fl.q2d st.r_frame_rate, by simp [VideoDecoder.getDuration, hstate, hv, hd],
        by simp [VideoDecoder.getStreamFPS, hstate, hv],
        by simp [VideoDecoder.getNumFrames, VideoDecoder.getDuration,
          VideoDecoder.getStreamFPS, hstate, hv, h', hd]⟩
    · exact ⟨fl.mul (fl.ofInt st.duration) (fl.q2d st.time_base), fl.q2d st.r_frame_rate,
        by simp [VideoDecoder.getDuration, hstate, hv, hd],
        by simp [VideoDecoder.getStreamFPS, hstate, hv],
        by simp [VideoDecoder.getNumFrames, VideoDecoder.getDuration,
          VideoDecoder.getStreamFPS, hstate, hv, h', hd]⟩
  refine ⟨hpos, ?_, hneg, ?_⟩
  · intro h1 h2
    have := toInt32_of_inRange st.nb_frames (by omega) h2
    rw [this] at hpos
    exact hpos h1
  · intro h1 h2
    have := toInt32_of_inRange st.nb_frames h1 (by omega)
    exact hneg (by rw [this]; exact h2)

/-- An instance: the opened `demoMovie` (frame count `0`) and a stream of `250` frames. -/
theorem getNumFrames_spec_witness :
    (∃ dur fps, demoOpened.getDuration demoFloat SS_VIDEO = .ok dur ∧
        demoOpened.getStreamFPS demoFloat = .ok fps ∧
        demoOpened.getNumFrames demoFloat = .ok (demoFloat.toInt (demoFloat.mul dur fps))) ∧
      (demoCounted 250).getNumFrames demoFloat = .ok 250 :=
  ⟨(getNumFrames_spec demoFloat demoOpened (demoStream AVMEDIA_TYPE_VIDEO 1 0) (by decide)
      (by decide)).2.2.2 (by decide) (by decide),
   (getNumFrames_spec demoFloat (demoCounted 250)
      { demoStream AVMEDIA_TYPE_VIDEO 1 0 with nb_frames := 250 } (by decide)
      (by decide)).2.1 (by decide) (by decide)⟩

/-- On a `CLOSED` decoder every stream-clock query fails its state assertion. -/
theorem streamClock_closed (fl : FloatOps) (d : VideoDecoder) (sel : StreamSelect)
    (hclosed : d.m_State = .CLOSED) :
    d.getDuration fl sel = .error .assertFailed ∧
      d.getNumFrames fl = .error .assertFailed ∧
      d.getStreamFPS fl = .error .assertFailed := by
  simp [VideoDecoder.getDuration, VideoDecoder.getNumFrames, VideoDecoder.getStreamFPS, hclosed]

/-- On a decoder that is not `CLOSED`, a query for a stream kind that is not selected
reads through the null descriptor. -/
theorem streamClock_missing_stream (fl : FloatOps) (d : VideoDecoder)
    (hstate : d.m_State ≠ .CLOSED) :
    (d.m_pVStream = none → d.getDuration fl SS_VIDEO = .error .nullDeref ∧
      d.getNumFrames fl = .error .nullDeref ∧ d.getStreamFPS fl = .error .nullDeref) ∧
    (d.m_pAStream = none → d.getDuration fl SS_AUDIO = .error .nullDeref) := by
  constructor
  · intro hv
    simp [VideoDecoder.getDuration, VideoDecoder.getNumFrames, VideoDecoder.getStreamFPS,
      hstate, hv]
  · intro ha
    simp [VideoDecoder.getDuration, hstate, ha]

/-- Claim C12 (evaluation at the failing input): on the `OPENED` audio-only decoder
`getDuration(SS_VIDEO)`, `getNumFrames` and `getStreamFPS` pass the state assertion
and read through the null video descriptor, and on an `OPENED` video-only decoder
`getDuration(SS_AUDIO)` reads through the null audio descriptor: no invalid-state
error is raised. -/
theorem streamClock_reads_null :
    demoAudioOpened.m_State = .OPENED ∧ demoAudioOpened.m_pVStream = none ∧
      demoAudioOpened.getDuration demoFloat SS_VIDEO = .error .nullDeref ∧
      demoAudioOpened.getNumFrames demoFloat = .error .nullDeref ∧
      demoAudioOpened.getStreamFPS demoFloat = .error .nullDeref ∧
      (demoCounted 250).m_State = .OPENED ∧ (demoCounted 250).m_pAStream = none ∧
      (demoCounted 250).getDuration demoFloat SS_AUDIO = .error .nullDeref :=
  ⟨by decide, by decide, rfl, rfl, rfl, by decide, by decide, rfl⟩

/-! ## Video codec opens, audio codec fails (claim C13) -/

/-- The case of claim C13 in general: for a container with a video stream whose
codec opens (`openCodec` returns `0` for the selected video index) and an audio
stream whose codec does not (`openCodec` returns `-1` for the selected audio
index), `open` with sound enabled ends in the read through the cleared
`m_pAStream`, whatever the decoder it is called on. -/
theorem open_video_ok_audio_codec_failed (w : World) (cfg : BuildConfig) (d : VideoDecoder)
    (fn : String) (hw : Bool) (err : Int) (ctx0 ctx : AVFormatContext) (vi ai : Int)
    (hopen : w.avformat_open_input fn = (err, some ctx0)) (herr : 0 ≤ err)
    (hinfo : 0 ≤ (w.avformat_find_stream_info ctx0).1)
    (hctx : (w.avformat_find_stream_info ctx0).2 = ctx)
    (hfmt : ctx.iformat_name ≠ "image2")
    (hvideo : ∃ s ∈ ctx.streams, s.codec.codec_type = AVMEDIA_TYPE_VIDEO)
    (haudio : ∃ s ∈ ctx.streams, s.codec.codec_type = AVMEDIA_TYPE_AUDIO)
    (hva : findStreams true ctx.streams 0 (-1, -1) = (vi, ai))
    (hvid : ∀ d0 : VideoDecoder, d0.m_pFormatContext = some ctx →
      (d0.openCodec w cfg vi hw).2 = .ok 0)
    (haud : ∀ d0 : VideoDecoder, d0.m_pFormatContext = some ctx →
      (d0.openCodec w cfg ai false).2 = .ok (-1)) :
    (d.open w cfg fn hw true).2 = .error .nullDeref := by
  subst hctx
  have h1 : ¬ err < 0 := by omega
  have h2 : ¬ (w.avformat_find_stream_info ctx0).1 < 0 := by omega
  have hvi : vi = firstFrom AVMEDIA_TYPE_VIDEO (w.avformat_find_stream_info ctx0).2.streams 0
      (-1) := by
    have := findStreams_fst true (w.avformat_find_stream_info ctx0).2.streams 0 (-1) (-1)
    rw [hva] at this
    simpa using this
  have hai : ai = firstFrom AVMEDIA_TYPE_AUDIO (w.avformat_find_stream_info ctx0).2.streams 0
      (-1) := by
    have := findStreams_snd_enabled (w.avformat_find_stream_info ctx0).2.streams 0 (-1) (-1)
    rw [hva] at this
    simpa using this
  have hv0 : 0 ≤ vi := by rw [hvi]; exact firstFrom_nonneg _ _ hvideo
  have ha0 : 0 ≤ ai := by rw [hai]; exact firstFrom_nonneg _ _ haudio
  obtain ⟨fv, fa⟩ := findStreams_valid true (w.avformat_find_stream_info ctx0).2.streams
  rw [hva] at fv fa
  dsimp only at fv fa
  have hsv : ∃ sv, streamAt (w.avformat_find_stream_info ctx0).2.streams vi = some sv := by
    rcases fv with h | ⟨-, h⟩
    · omega
    · exact h
  have hsa : ∃ sa, streamAt (w.avformat_find_stream_info ctx0).2.streams ai = some sa := by
    rcases fa with h | ⟨-, h⟩
    · omega
    · exact h
  obtain ⟨sv, hsv⟩ := hsv
  obtain ⟨sa, hsa⟩ := hsa
  have hopenEq : d.open w cfg fn hw true =
      VideoDecoder.openStreams w cfg
        { d with m_sFilename := fn
                 m_pFormatContext := some (w.avformat_find_stream_info ctx0).2
                 m_VStreamIndex := vi
                 m_AStreamIndex := ai } fn hw := by
    simp [VideoDecoder.open, hopen, h1, h2, hfmt, hva]
  exact openStreams_audio_codec_failure w cfg _ fn hw
    (w.avformat_find_stream_info ctx0).2 sv sa _ hopenEq.symm rfl hv0 hsv ha0 hsa hvid haud

/-- Claim C13 (evaluation at the failing input): on `demoVideoWithBadAudio` (the
video codec opens, the audio codec has no decoder) `open` with sound enabled, on a
fresh decoder, clears `m_pAStream` and then reads the codec description through
it, a read through the null pointer: the call neither returns nor raises, so no
decoder in state `OPENED` with a usable video stream results. In the mirrored
container `demoBadVideoWithAudio` (the video codec has no decoder) the sibling
video path reads the description before clearing the pointer and raises
"unsupported video codec", a call the caller survives. -/
theorem open_audio_codec_failure_reads_null :
    (VideoDecoder.construct.open (demoLib demoVideoWithBadAudio) (demoBuild false false)
        "talk.avi" false true).2 = .error .nullDeref ∧
      survived (VideoDecoder.construct.open (demoLib demoVideoWithBadAudio)
        (demoBuild false false) "talk.avi" false true).2 = false ∧
      (VideoDecoder.construct.open (demoLib demoBadVideoWithAudio) (demoBuild false false)
        "clip.avi" false true).2 =
        .error (.exception .AVG_ERR_VIDEO_INIT_FAILED
          "clip.avi: unsupported video codec (codec 200).") ∧
      survived (VideoDecoder.construct.open (demoLib demoBadVideoWithAudio)
        (demoBuild false false) "clip.avi" false true).2 = true :=
  ⟨rfl, rfl, rfl, rfl⟩

/-! ## The container handle after a failed `open` (claim C14) -/

/-- Claim C14 (evaluation at the failing input): on a fresh decoder, `open` on a
container whose only stream has no decoder throws "unsupported video codec", and
`open` on a container with a single subtitle stream throws "no usable streams
found"; both leave a reachable decoder in state `CLOSED` that still holds the
container handle. -/
theorem failed_open_keeps_container :
    Reachable (demoBuild false false)
        (VideoDecoder.construct.open (demoLib demoBadVideo) (demoBuild false false)
          "v.avi" false true).1 ∧
      (VideoDecoder.construct.open (demoLib demoBadVideo) (demoBuild false false)
        "v.avi" false true).2 =
        .error (.exception .AVG_ERR_VIDEO_INIT_FAILED
          "v.avi: unsupported video codec (codec 200).") ∧
      (VideoDecoder.construct.open (demoLib demoBadVideo) (demoBuild false false)
        "v.avi" false true).1.m_State = .CLOSED ∧
      (VideoDecoder.construct.open (demoLib demoBadVideo) (demoBuild false false)
        "v.avi" false true).1.m_pFormatContext = some demoBadVideo ∧
      (VideoDecoder.construct.open
        (demoLib (demoContainer "srt" [demoStream AVMEDIA_TYPE_SUBTITLE 7 0]))
        (demoBuild false false) "subs.srt" false true).2 =
        .error (.exception .AVG_ERR_VIDEO_INIT_FAILED "subs.srt: no usable streams found.") ∧
      (VideoDecoder.construct.open
        (demoLib (demoContainer "srt" [demoStream AVMEDIA_TYPE_SUBTITLE 7 0]))
        (demoBuild false false) "subs.srt" false true).1.m_State = .CLOSED ∧
      (VideoDecoder.construct.open
        (demoLib (demoContainer "srt" [demoStream AVMEDIA_TYPE_SUBTITLE 7 0]))
        (demoBuild false false) "subs.srt" false true).1.m_pFormatContext =
        some (demoContainer "srt" [demoStream AVMEDIA_TYPE_SUBTITLE 7 0]) :=
  ⟨Reachable.open (demoLib demoBadVideo) VideoDecoder.construct "v.avi" false true
      Reachable.construct rfl,
    rfl, by decide, by decide, rfl, by decide, by decide⟩

/-! ## The order of the lifecycle states (claim C15) -/

/-- Claim C15, refuted as stated: `open` on the `DECODING` decoder succeeds and
leaves it in state `OPENED`, below `DECODING`. -/
theorem open_lowers_decoding_counterexample :
    demoDecoding.m_State = .DECODING ∧
      (demoDecoding.open (demoLib demoMovie) (demoBuild false false) "movie.avi"
        false true).2 = .ok () ∧
      (demoDecoding.open (demoLib demoMovie) (demoBuild false false) "movie.avi"
        false true).1.m_State = .OPENED ∧
      (demoDecoding.open (demoLib demoMovie) (demoBuild false false) "movie.avi"
        false true).1.m_State.rank < demoDecoding.m_State.rank :=
  ⟨by decide, rfl, by decide, by decide⟩

/-- Claim C15, amended: with the order `CLOSED < OPENED < DECODING`, a call of
`startDecoding` (successful or failing) never lowers the state; a failing call of
`open` leaves the state as it was; a successful call of `open` sets the state to
`OPENED` whatever it was, so `open` does not lower the state of a decoder that is
not `DECODING`, and lowers a `DECODING` decoder to `OPENED`; `close` sets the
state to `CLOSED`. -/
theorem state_order (w : World) (cfg : BuildConfig) (d : VideoDecoder) (fn : String)
    (hw snd b : Bool) (pAP : Option AudioParams) :
    d.m_State.rank ≤ (d.startDecoding w cfg b pAP).1.m_State.rank ∧
      (∀ f, (d.open w cfg fn hw snd).2 = .error f →
        (d.open w cfg fn hw snd).1.m_State = d.m_State) ∧
      ((d.open w cfg fn hw snd).2 = .ok () →
        (d.open w cfg fn hw snd).1.m_State = .OPENED) ∧
      (d.m_State ≠ .DECODING →
        d.m_State.rank ≤ (d.open w cfg fn hw snd).1.m_State.rank) ∧
      d.close.m_State = .CLOSED := by
  have hopen : (∃ f, (d.open w cfg fn hw snd).2 = .error f ∧
        (d.open w cfg fn hw snd).1.m_State = d.m_State) ∨
      ((d.open w cfg fn hw snd).2 = .ok () ∧
        (d.open w cfg fn hw snd).1.m_State = .OPENED) := by
    rcases open_post w cfg d fn hw snd _ rfl with
      ⟨f, h1, h2, -⟩ | ⟨-, -, ⟨h1, h2, -⟩ | ⟨f, h1, h2, -⟩⟩
    · exact Or.inl ⟨f, h1, h2⟩
    · exact Or.inr ⟨h1, h2⟩
    · exact Or.inl ⟨f, h1, h2⟩
  refine ⟨?_, ?_, ?_, ?_, (close_post d).1⟩
  · rcases startDecoding_state w cfg d b pAP with ⟨h, -⟩ | ⟨h, h', -⟩
    · rw [h]
    · rw [h, h']
      decide
  · intro f hf
    rcases hopen with ⟨f', -, h⟩ | ⟨h, -⟩
    · exact h
    · rw [hf] at h
      simp at h
  · intro hok
    rcases hopen with ⟨f', h, -⟩ | ⟨-, h⟩
    · rw [hok] at h
      simp at h
    · exact h
  · intro hnd
    rcases hopen with ⟨f', -, h⟩ | ⟨-, h⟩
    · rw [h]
    · rw [h]
      cases hs : d.m_State
      · decide
      · decide
      · exact absurd hs hnd

/-- An instance: the opened `demoMovie`, started without audio and opened again. -/
theorem state_order_witness :
    demoOpened.m_State.rank ≤
        (demoOpened.startDecoding (demoLib demoMovie) (demoBuild false false) true
          none).1.m_State.rank ∧
      (demoOpened.open (demoLib demoMovie) (demoBuild false false) "movie.avi"
        false true).1.m_State = .OPENED ∧
      demoOpened.m_State.rank ≤
        (demoOpened.open (demoLib demoMovie) (demoBuild false false) "movie.avi"
          false true).1.m_State.rank :=
  ⟨(state_order (demoLib demoMovie) (demoBuild false false) demoOpened "movie.avi" false true
      true none).1,
   (state_order (demoLib demoMovie) (demoBuild false false) demoOpened "movie.avi" false true
      true none).2.2.1 rfl,
   (state_order (demoLib demoMovie) (demoBuild false false) demoOpened "movie.avi" false true
      true none).2.2.2.1 (by decide)⟩

/-! ## Accelerator handles over open/close cycles (claim C16) -/

/-- Without the VAAPI backend, or without hardware acceleration requested, `open`
creates no accelerator object: pointer and heap accounting stay as they were. -/
theorem open_no_accel (w : World) (cfg : BuildConfig) (d : VideoDecoder) (fn : String)
    (hw snd : Bool) (h : cfg.AVG_ENABLE_VAAPI = false ∨ hw = false) :
    (d.open w cfg fn hw snd).1.m_pVAAPIDecoder = d.m_pVAAPIDecoder ∧
      (d.open w cfg fn hw snd).1.liveAccel = d.liveAccel := by
  have hcv : ∀ (d1 : VideoDecoder) (i : Int) (oc : Outcome Int),
      d1.openCodec w cfg i hw = oc → oc.1 = d1 :=
    fun d1 i oc e => e ▸ openCodec_no_accel w cfg d1 i hw h
  have hca : ∀ (d1 : VideoDecoder) (i : Int) (oc : Outcome Int),
      d1.openCodec w cfg i false = oc → oc.1 = d1 :=
    fun d1 i oc e => e ▸ openCodec_no_accel w cfg d1 i false (Or.inr rfl)
  have hvideo : ∀ d0 : VideoDecoder,
      (d0.openVideoStream w cfg fn hw).1.m_pVAAPIDecoder = d0.m_pVAAPIDecoder ∧
      (d0.openVideoStream w cfg fn hw).1.liveAccel = d0.liveAccel := by
    intro d0
    unfold VideoDecoder.openVideoStream
    split
    · split
      · exact ⟨rfl, rfl⟩
      · split
        · exact ⟨rfl, rfl⟩
        · dsimp only
          split
          · rename_i hoc
            have hd := hcv _ _ _ hoc
            dsimp only at hd
            subst hd
            exact ⟨rfl, rfl⟩
          · rename_i hoc
            have hd := hcv _ _ _ hoc
            dsimp only at hd
            subst hd
            split
            · exact ⟨rfl, rfl⟩
            · exact ⟨rfl, rfl⟩
    · exact ⟨rfl, rfl⟩
  have haudio : ∀ d0 : VideoDecoder,
      (d0.openAudioStream w cfg fn).1.m_pVAAPIDecoder = d0.m_pVAAPIDecoder ∧
      (d0.openAudioStream w cfg fn).1.liveAccel = d0.liveAccel := by
    intro d0
    unfold VideoDecoder.openAudioStream
    split
    · split
      · exact ⟨rfl, rfl⟩
      · split
        · exact ⟨rfl, rfl⟩
        · dsimp only
          split
          · rename_i hoc
            have hd := hca _ _ _ hoc
            dsimp only at hd
            subst hd
            exact ⟨rfl, rfl⟩
          · rename_i hoc
            have hd := hca _ _ _ hoc
            dsimp only at hd
            subst hd
            split
            · exact ⟨rfl, rfl⟩
            · exact ⟨rfl, rfl⟩
    · exact ⟨rfl, rfl⟩
  have hstreams : ∀ d0 : VideoDecoder,
      (d0.openStreams w cfg fn hw).1.m_pVAAPIDecoder = d0.m_pVAAPIDecoder ∧
      (d0.openStreams w cfg fn hw).1.liveAccel = d0.liveAccel := by
    intro d0
    have hv := hvideo d0
    unfold VideoDecoder.openStreams
    split
    · rename_i d4 e hvs
      rw [hvs] at hv
      exact hv
    · rename_i d4 u hvs
      rw [hvs] at hv
      dsimp only at hv
      have ha := haudio d4
      split
      · rename_i d5 e has
        rw [has] at ha
        dsimp only at ha ⊢
        exact ⟨ha.1.trans hv.1, ha.2.trans hv.2⟩
      · rename_i d5 u2 has
        rw [has] at ha
        dsimp only at ha
        split
        · exact ⟨ha.1.trans hv.1, ha.2.trans hv.2⟩
        · exact ⟨ha.1.trans hv.1, ha.2.trans hv.2⟩
  unfold VideoDecoder.open
  dsimp only
  split
  · exact ⟨rfl, rfl⟩
  · split
    · exact ⟨rfl, rfl⟩
    · split
      · exact ⟨rfl, rfl⟩
      · split
        · exact ⟨rfl, rfl⟩
        · exact hstreams _

/-- Claim C16 (evaluation at the failing input): in a build with the VAAPI backend,
with hardware acceleration requested and a backend that opens the codec, `open`
followed by `close` leaves the accelerator pointer set and its object alive; the
second `open` succeeds in state `OPENED` with two accelerator objects alive, and
after three cycles three are alive: the number grows with the cycles. -/
theorem accel_handles_accumulate :
    (demoAccelCycle VideoDecoder.construct).m_State = .CLOSED ∧
      (demoAccelCycle VideoDecoder.construct).m_pVStream = none ∧
      (demoAccelCycle VideoDecoder.construct).m_pAStream = none ∧
      (demoAccelCycle VideoDecoder.construct).m_pVAAPIDecoder = some 0 ∧
      (demoAccelCycle VideoDecoder.construct).liveAccel = [0] ∧
      ((demoAccelCycle VideoDecoder.construct).open (demoAccelLib demoMovie)
        (demoBuild false true) "movie.avi" true true).2 = .ok () ∧
      ((demoAccelCycle VideoDecoder.construct).open (demoAccelLib demoMovie)
        (demoBuild false true) "movie.avi" true true).1.m_State = .OPENED ∧
      ((demoAccelCycle VideoDecoder.construct).open (demoAccelLib demoMovie)
        (demoBuild false true) "movie.avi" true true).1.liveAccel = [1, 0] ∧
      (demoAccelCycle (demoAccelCycle (demoAccelCycle VideoDecoder.construct))).liveAccel =
        [2, 1, 0] :=
  ⟨by decide, by decide, by decide, by decide, by decide, rfl, by decide, by decide,
    by decide⟩

/-! ## A decoder that is not closed and has no descriptor (claim C17) -/

/-- Claim C17 (evaluation at the failing input): on the `OPENED` audio-only decoder,
`startDecoding` with absent audio parameters clears the audio descriptor and then
throws "no usable streams found"; the decoder it leaves is reachable, in state
`OPENED`, with neither descriptor present, and `getVideoInfo` on it passes the
state assertion and fails the assertion that a stream is present. -/
theorem started_without_streams :
    Reachable (demoBuild false false) demoAudioStarted ∧
      (demoAudioOpened.startDecoding (demoLib demoAudioOnly) (demoBuild false false) true
        none).2 =
        .error (.exception .AVG_ERR_VIDEO_INIT_FAILED "song.wav: no usable streams found.") ∧
      demoAudioStarted.m_State = .OPENED ∧ demoAudioStarted.m_State ≠ .CLOSED ∧
      demoAudioStarted.m_pVStream = none ∧ demoAudioStarted.m_pAStream = none ∧
      demoAudioStarted.getVideoInfo (demoBuild false false) demoIntrospection demoFloat =
        .error .assertFailed :=
  ⟨Reachable.startDecoding (demoLib demoAudioOnly) demoAudioOpened true none
      (Reachable.open (demoLib demoAudioOnly) VideoDecoder.construct "song.wav" false true
        Reachable.construct rfl) rfl,
    rfl, by decide, by decide, by decide, by decide, rfl⟩

/-! ## The current state of a `StateAnim` (claim C18) -/

/-- With the player running and no current state, `setState` with a name that is
not empty and not a known state throws "State unknown" after it has made that name
the current state. -/
theorem setState_unknown (env : AnimEnv) (sa : StateAnim) (sName : String) (bKeepAttr : Bool)
    (hplay : env.isPlaying = true) (hcur : sa.m_sCurStateName = "") (hne : sName ≠ "")
    (hunknown : mapFind sa.m_States sName = none) :
    (sa.setState env sName bKeepAttr).2 =
        .error (.exception .AVG_ERR_INVALID_ARGS ("StateAnim: State " ++ sName ++ " unknown.")) ∧
      (sa.setState env sName bKeepAttr).1.getState = sName := by
  have h1 : ¬ ("" = sName) := fun h => hne h.symm
  simp [StateAnim.setState, StateAnim.switchToNewState, StateAnim.getState, hplay, hcur, h1,
    hne, hunknown]

/-- Claim C18 (evaluation at the failing input): on `StateAnim(demoAnimStates)` with
the player running, `setState("bogus")` throws "State bogus unknown." and
`getState` then returns `"bogus"`, which is neither empty nor one of the states
`idle` and `busy`; on `StateAnim(demoDanglingStates)`, `setState("idle")`
succeeds and a `step` whose child animation is done throws "State gone unknown."
and leaves `getState` at `"gone"`. -/
theorem setState_unknown_changes_state :
    StateAnim.construct demoAnimStates = .ok demoStateAnim ∧
      demoStateAnim.getState = "" ∧
      (demoStateAnim.setState demoAnimEnv "bogus" false).2 =
        .error (.exception .AVG_ERR_INVALID_ARGS "StateAnim: State bogus unknown.") ∧
      (demoStateAnim.setState demoAnimEnv "bogus" false).1.getState = "bogus" ∧
      demoAnimStates.map (fun st => st.m_sName) = ["idle", "busy"] ∧
      StateAnim.construct demoDanglingStates = .ok demoDanglingAnim ∧
      (demoDanglingAnim.setState demoAnimEnv "idle" false).2 = .ok () ∧
      ((demoDanglingAnim.setState demoAnimEnv "idle" false).1.step demoAnimEnvDone).2 =
        .error (.exception .AVG_ERR_INVALID_ARGS "StateAnim: State gone unknown.") ∧
      ((demoDanglingAnim.setState demoAnimEnv "idle" false).1.step
        demoAnimEnvDone).1.getState = "gone" :=
  ⟨rfl, rfl, rfl, by decide, rfl, rfl, rfl, rfl, by decide⟩

end avg
